import Mathlib

/-!
# IPGOT: a shallow embedding of `baidu-map-version.js`

The worker is one request handler: it validates the `ip` query parameter,
asks a primary and then a fallback geolocation service, derives a synthetic
analysis, and fills an HTML template.

Modelling conventions.

* A JavaScript string is a Lean `String`; every pattern the program searches
  for is ASCII, so matching on code points and on UTF-16 units agree.
* A value that may be `undefined`/`null` or a string is an `Option String`
  (`none` stands for both `undefined` and `null`).
* `Math.random()` is a `Draw`: a fraction `num/den` in `[0,1)`; arithmetic on
  it is exact.  The sequence of draws of one request is a `Rand`.
* The network is a function from the requested URL to what `fetch` and
  `response.json()` produce.
* A thrown exception is the `error` side of `Except JsError`.
* A template string is modelled by the values placed in its `${...}` holes;
  the short templates (`searchForm`, `formatNoDataMessage`) are kept as text.
-/

namespace IPGOT

/-! ## JavaScript values and strings -/

/-- Truthiness of a possibly missing string: `undefined`, `null` and `''` are falsy. -/
def truthy : Option String → Bool
  | none => false
  | some s => s ≠ ""

/-- The operator `a || b` on possibly missing strings. -/
def jsOr (a b : Option String) : Option String :=
  if truthy a then a else b

/-- The operator `a || 'literal'` whose right operand is a string. -/
def orElse (a : Option String) (b : String) : String :=
  match a with
  | some s => if s ≠ "" then s else b
  | none => b

/-- String conversion of a template hole `${v}`. -/
def templ : Option String → String
  | some s => s
  | none => "undefined"

/-- String conversion of `${v}` for a value that is `null` when missing
(`searchParams.get`, `headers.get`). -/
def templNull : Option String → String
  | some s => s
  | none => "null"

/-- Embeds `s.includes(sub)`. -/
def includes (s sub : String) : Bool :=
  s.data.tails.any fun t => sub.data.isPrefixOf t

/-- Embeds `s.startsWith(p)`. -/
def startsWith (s p : String) : Bool :=
  p.data.isPrefixOf s.data

/-- An exception value; only its `message` is observed. -/
structure JsError where
  message : String
deriving DecidableEq, Repr

/-! ## Regular expressions (the fragment used by `ipv4Regex`) -/

/-- Regular expression syntax: a literal character, a class `[lo-hi]`,
concatenation, alternation `a|b` and the greedy optional `a?`. -/
inductive Regex where
  | char (c : Char)
  | range (lo hi : Char)
  | seq (a b : Regex)
  | alt (a b : Regex)
  | opt (a : Regex)

/-- Backtracking matcher: all the remainders left after matching a prefix of
the input, in the order a backtracking engine tries them. -/
def Regex.run : Regex → List Char → List (List Char)
  | .char c, x :: xs => if x = c then [xs] else []
  | .char _, [] => []
  | .range lo hi, x :: xs => if lo.toNat ≤ x.toNat ∧ x.toNat ≤ hi.toNat then [xs] else []
  | .range _ _, [] => []
  | .seq a b, s => (a.run s).flatMap b.run
  | .alt a b, s => a.run s ++ b.run s
  | .opt a, s => a.run s ++ [s]

/-- Embeds `/^r$/.test(s)`: some way of matching `r` consumes the whole input. -/
def Regex.test (r : Regex) (s : String) : Bool :=
  (r.run s.data).any List.isEmpty

/-- The group `(25[0-5]|2[0-4][0-9]|[01]?[0-9][0-9]?)`. -/
def octet : Regex :=
  .alt (.seq (.char '2') (.seq (.char '5') (.range '0' '5')))
    (.alt (.seq (.char '2') (.seq (.range '0' '4') (.range '0' '9')))
      (.seq (.opt (.range '0' '1')) (.seq (.range '0' '9') (.opt (.range '0' '9')))))

/-- The pattern `ipv4Regex` between `^` and `$`: four groups joined by `\.`. -/
def ipv4Regex : Regex :=
  .seq octet (.seq (.char '.') (.seq octet (.seq (.char '.')
    (.seq octet (.seq (.char '.') octet)))))

/-- Embeds `isValidIpAddress(ip)`. -/
def isValidIpAddress (ip : String) : Bool :=
  ipv4Regex.test ip

/-! ## Randomness and the clock -/

/-- One result of `Math.random()`: the fraction `num/den`, at least 0 and below 1. -/
structure Draw where
  num : Nat
  den : Nat
  lt : num < den

/-- Embeds `Math.floor(Math.random() * k)`. -/
def Draw.floorMul (d : Draw) (k : Nat) : Nat :=
  k * d.num / d.den

/-- Embeds `Math.random() > p/q` for a decimal threshold such as `0.3 = 3/10`. -/
def Draw.gt (d : Draw) (p q : Nat) : Bool :=
  decide (p * d.den < q * d.num)

/-- The successive results of `Math.random()` during one request. -/
def Rand := Nat → Draw

/-- Take the next draw. -/
def Rand.next (g : Rand) : Draw × Rand :=
  (g 0, fun n => g (n + 1))

/-! ## Data model -/

/-- The common record shape produced by both resolvers. -/
structure IpRecord where
  ip : Option String := none
  city : Option String := none
  region : Option String := none
  country : Option String := none
  loc : Option String := none
  org : Option String := none
  postal : Option String := none
  timezone : Option String := none
  hostname : Option String := none
  isp : Option String := none
  asn : Option String := none
deriving DecidableEq, Repr

/-- A history date `${year}-MM-DD`: the computed year and the literal suffix. -/
structure HistDate where
  year : Int
  suffix : String
deriving DecidableEq, Repr

/-- The text of a history date. -/
def HistDate.render (d : HistDate) : String :=
  toString d.year ++ d.suffix

structure AsnEntry where
  asn : String
  org : String
  date : HistDate
  current : Bool
deriving DecidableEq, Repr

structure RegEntry where
  country : String
  region : String
  city : String
  date : HistDate
  current : Bool
deriving DecidableEq, Repr

structure ThreatAnalysis where
  level : String
  description : String
  recommendations : List String
deriving DecidableEq, Repr

structure ProxyDetection where
  detected : Bool
  type : String
  confidence : String
deriving DecidableEq, Repr

/-- One row of the blacklist table; `lastChecked` is the instant
`Date.now() - offset` in milliseconds, shown as its ISO date. -/
structure BlacklistEntry where
  list : String
  status : String
  lastChecked : Int
deriving DecidableEq, Repr

structure BlacklistStatus where
  isListed : Bool
  lists : List BlacklistEntry
deriving DecidableEq, Repr

/-- The object returned by `generateAdvancedIpAnalysis`. -/
structure AnalysisResult where
  ipType : String
  riskScore : Int
  riskLevel : String
  asnHistory : List AsnEntry
  registrationHistory : List RegEntry
  threatAnalysis : ThreatAnalysis
  proxyDetection : ProxyDetection
  hostingProvider : String
  blacklistStatus : BlacklistStatus
deriving DecidableEq, Repr

/-- What a resolver returns, and what `result` holds in `handleRequest`:
either `{ error: true, message }` or a record, to which the handler later
attaches `advanced`. -/
inductive IpResult where
  | failure (message : String)
  | record (data : IpRecord) (advanced : Option AnalysisResult)
deriving DecidableEq, Repr

/-- The test `result.error`. -/
def IpResult.error : IpResult → Bool
  | .failure _ => true
  | .record _ _ => false

/-- The property `result.message`. -/
def IpResult.message : IpResult → Option String
  | .failure m => some m
  | .record _ _ => none

/-! ## Synthetic analysis -/

/-- The constant `highRiskCountries`. -/
def highRiskCountries : List String := ["RU", "CN", "KP", "IR", "SY"]

/-- The constant `torExits` of `calculateRiskScore`. -/
def torExits : List String := ["199.249.230.", "185.220.100.", "193.189.100."]

/-- The condition `data.country && highRiskCountries.includes(data.country)`. -/
def countryBonusApplies (data : IpRecord) : Bool :=
  match data.country with
  | some c => c ≠ "" && highRiskCountries.contains c
  | none => false

/-- The condition
`data.org && (data.org.includes('Data Center') || data.org.includes('Hosting'))`. -/
def dataCenterOrg (data : IpRecord) : Bool :=
  match data.org with
  | some o => o ≠ "" && (includes o "Data Center" || includes o "Hosting")
  | none => false

/-- Embeds `calculateRiskScore(ip, data)`, with `d` the result of its `Math.random()`. -/
def calculateRiskScore (ip : String) (data : IpRecord) (d : Draw) : Int :=
  let score : Int := 20
  let score := if countryBonusApplies data then score + 30 else score
  let score := if dataCenterOrg data then score + 25 else score
  let score := if torExits.any (fun p => startsWith ip p) then score + 40 else score
  let score := score + ((d.floorMul 10 : Nat) : Int) - 5
  min (max score 0) 100

/-- The expression `'AS' + Math.floor(Math.random() * 100000)`. -/
def randomAsn (d : Draw) : String :=
  "AS" ++ toString (d.floorMul 100000)

/-- Embeds `generateAsnHistory(ip, data)`; `currentYear` is `new Date().getFullYear()`.
Returns the history and the draws left. -/
def generateAsnHistory (currentYear : Int) (data : IpRecord) (g : Rand) :
    List AsnEntry × Rand :=
  -- `data.asn || 'AS' + ...` draws only when `data.asn` is falsy
  let (asn, g) :=
    if truthy data.asn then (orElse data.asn "", g)
    else let (d, g) := g.next; (randomAsn d, g)
  let history : List AsnEntry :=
    [{ asn := asn, org := orElse data.org "未知组织",
       date := ⟨currentYear, "-01-01"⟩, current := true }]
  let (d1, g) := g.next
  let (history, g) :=
    if d1.gt 3 10 then
      let (d, g) := g.next
      (history ++ [{ asn := randomAsn d, org := "之前的ISP提供商",
                     date := ⟨currentYear - 1, "-06-15"⟩, current := false }], g)
    else (history, g)
  let (d2, g) := g.next
  let (history, g) :=
    if d2.gt 5 10 then
      let (d, g) := g.next
      (history ++ [{ asn := randomAsn d, org := "更早的网络服务商",
                     date := ⟨currentYear - 2, "-03-22"⟩, current := false }], g)
    else (history, g)
  (history, g)

/-- Embeds `generateRegistrationHistory(ip, data)`. -/
def generateRegistrationHistory (currentYear : Int) (data : IpRecord) (g : Rand) :
    List RegEntry × Rand :=
  let history : List RegEntry :=
    [{ country := orElse data.country "未知", region := orElse data.region "未知",
       city := orElse data.city "未知",
       date := ⟨currentYear, "-01-01"⟩, current := true }]
  let (d1, g) := g.next
  let history :=
    if d1.gt 3 10 then
      history ++ [{ country := orElse data.country "未知", region := "之前的区域",
                    city := "之前的城市",
                    date := ⟨currentYear - 1, "-07-01"⟩, current := false }]
    else history
  let (d2, g) := g.next
  let history :=
    if d2.gt 5 10 && decide (data.country ≠ some "US") then
      history ++ [{ country := "US", region := "California", city := "Los Angeles",
                    date := ⟨currentYear - 2, "-05-12"⟩, current := false }]
    else history
  (history, g)

/-- Embeds `generateThreatAnalysis(riskScore)`. -/
def generateThreatAnalysis (riskScore : Int) : ThreatAnalysis :=
  if riskScore > 80 then
    { level := "高风险",
      description := "该IP地址与已知的恶意活动相关，包括僵尸网络、垃圾邮件发送和网络攻击。",
      recommendations := ["立即阻止此IP的所有访问", "增强安全监控措施", "审查所有由此IP产生的活动"] }
  else if riskScore > 50 then
    { level := "中风险",
      description := "该IP地址表现出可疑行为，可能与代理服务或VPN有关，需要进一步审查。",
      recommendations := ["监控此IP的访问行为", "启用二次验证机制", "限制敏感操作权限"] }
  else
    { level := "低风险",
      description := "该IP地址表现正常，属于常规用户或可信服务提供商。",
      recommendations := ["保持常规安全监控", "无需特别限制操作"] }

/-- The constant `proxyProviders`. -/
def proxyProviders : List String :=
  ["NordVPN", "ExpressVPN", "Surfshark", "CyberGhost", "Private Internet Access",
   "Tor Network", "Proxyservice", "VPN"]

/-- The constant `torRanges` of `detectProxyUsage`. -/
def torRanges : List String :=
  ["199.249.230.", "185.220.100.", "193.189.100.",
   "104.244.46.", "51.222.106.", "71.19.154."]

/-- Embeds `detectProxyUsage(ip, data)`. -/
def detectProxyUsage (ip : String) (data : IpRecord) : ProxyDetection :=
  if truthy data.org && proxyProviders.any (fun p => includes (orElse data.org "") p) then
    { detected := true, type := "商业VPN服务", confidence := "高" }
  else if torRanges.any (fun r => startsWith ip r) then
    { detected := true, type := "TOR出口节点", confidence := "高" }
  else if dataCenterOrg data then
    { detected := true, type := "数据中心IP", confidence := "中" }
  else
    { detected := false, type := "未检测到", confidence := "高" }

/-- The object `hostingProviders`, in the order `Object.entries` lists it. -/
def hostingProviders : List (String × String) :=
  [("Amazon", "AWS"), ("Google", "Google Cloud"), ("Microsoft", "Azure"),
   ("Digital Ocean", "DigitalOcean"), ("Linode", "Linode"), ("OVH", "OVH"),
   ("Hetzner", "Hetzner"), ("Alibaba", "Alibaba Cloud")]

/-- Embeds `detectHostingProvider(data)`. -/
def detectHostingProvider (data : IpRecord) : String :=
  match data.org with
  | none => "未知"
  | some org =>
    if org = "" then "未知"
    else
      match hostingProviders.find? (fun kv => includes org kv.1) with
      | some kv => kv.2
      | none => org

/-- The constant `blacklists`. -/
def blacklists : List String := ["Spamhaus", "Barracuda", "SORBS", "AbuseIPDB"]

/-- The body of the `forEach` of `checkBlacklistStatus`, run over the
remaining names: `isListed && Math.random() > 0.5` draws only when `isListed`,
then `lastChecked` takes one draw. -/
def blacklistRows (now : Int) (isListed : Bool) : List String → Rand → List BlacklistEntry × Rand
  | [], g => ([], g)
  | name :: rest, g =>
    let (listed, g) :=
      if isListed then let (d, g) := g.next; (d.gt 5 10, g) else (false, g)
    let (d, g) := g.next
    let row : BlacklistEntry :=
      { list := name, status := if listed then "已列入" else "未列入",
        lastChecked := now - ((d.floorMul (30 * 24 * 60 * 60 * 1000) : Nat) : Int) }
    let (rows, g) := blacklistRows now isListed rest g
    (row :: rows, g)

/-- Embeds `checkBlacklistStatus(ip)`; `now` is `Date.now()`. -/
def checkBlacklistStatus (now : Int) (g : Rand) : BlacklistStatus × Rand :=
  let (d, g) := g.next
  let isListed := d.gt 7 10
  let (results, g) := blacklistRows now isListed blacklists g
  ({ isListed := isListed, lists := results }, g)

/-- What `response.json()` gives: a rejection (malformed body), the value
`null`, or a value whose property `k` is `get k` (`none` when missing). -/
inductive JsonBody where
  | invalid (e : JsError)
  | null
  | value (get : String → Option String)

/-- What `fetch(url)` gives: a rejection (network failure) or a response with
its `ok` flag and its body. -/
inductive FetchOutcome where
  | networkError (e : JsError)
  | response (ok : Bool) (body : JsonBody)

/-- The world outside the handler: the clock, the network, and the
engine-defined message of the `TypeError` raised by the property access
named in the argument. -/
structure Env where
  currentYear : Int
  now : Int
  fetch : String → FetchOutcome
  typeErrorMessage : String → String

/-- Embeds `generateAdvancedIpAnalysis(ip, basicData)`: `ip.includes(':')` throws when
`ip` is `null`. -/
def generateAdvancedIpAnalysis (env : Env) (ip : Option String) (basicData : IpRecord)
    (g : Rand) : Except JsError AnalysisResult :=
  match ip with
  | none => .error ⟨env.typeErrorMessage "null.includes"⟩
  | some ip =>
    let ipType := if includes ip ":" then "IPv6" else "IPv4"
    let (d, g) := g.next
    let riskScore := calculateRiskScore ip basicData d
    let (asnHistory, g) := generateAsnHistory env.currentYear basicData g
    let (registrationHistory, g) := generateRegistrationHistory env.currentYear basicData g
    .ok { ipType := ipType,
          riskScore := riskScore,
          riskLevel := if riskScore > 80 then "高风险" else if riskScore > 50 then "中风险" else "低风险",
          asnHistory := asnHistory,
          registrationHistory := registrationHistory,
          threatAnalysis := generateThreatAnalysis riskScore,
          proxyDetection := detectProxyUsage ip basicData,
          hostingProvider := detectHostingProvider basicData,
          blacklistStatus := (checkBlacklistStatus env.now g).1 }

/-! ## Resolvers -/

/-- The `try` block of `fetchIpInfo`: `fetch` or `response.json()` may reject,
and reading a property of `null` throws. -/
def fetchIpInfoTry (env : Env) (ip : Option String) : Except JsError IpResult :=
  let apiUrl := "https://ipinfo.io/" ++ templNull ip ++ "/json?token=free"
  match env.fetch apiUrl with
  | .networkError e => .error e
  | .response false _ => .ok (.failure "IP信息获取失败")
  | .response true (.invalid e) => .error e
  | .response true .null => .error ⟨env.typeErrorMessage "null.ip"⟩
  | .response true (.value data) =>
    .ok (.record
      { ip := data "ip", city := data "city", region := data "region",
        country := data "country", loc := data "loc", org := data "org",
        postal := data "postal", timezone := data "timezone",
        hostname := data "hostname" } none)

/-- Embeds `fetchIpInfo(ip)`: the `catch` turns every exception into an error record. -/
def fetchIpInfo (env : Env) (ip : Option String) : IpResult :=
  match fetchIpInfoTry env ip with
  | .ok r => r
  | .error _ => .failure "API请求失败"

/-- The `try` block of `fetchBackupIpInfo`. -/
def fetchBackupIpInfoTry (env : Env) (ip : Option String) : Except JsError IpResult :=
  let apiUrl := "http://ip-api.com/json/" ++ templNull ip ++ "?fields=66846719"
  match env.fetch apiUrl with
  | .networkError e => .error e
  | .response false _ => .ok (.failure "备用API请求失败")
  | .response true (.invalid e) => .error e
  | .response true .null => .error ⟨env.typeErrorMessage "null.city"⟩
  | .response true (.value data) =>
    .ok (.record
      { ip := ip, city := data "city", region := data "regionName",
        country := data "country",
        loc := some (templ (data "lat") ++ "," ++ templ (data "lon")),
        org := data "org", isp := data "isp", asn := data "as",
        postal := data "zip", timezone := data "timezone",
        hostname := data "reverse" } none)

/-- Embeds `fetchBackupIpInfo(ip)`. -/
def fetchBackupIpInfo (env : Env) (ip : Option String) : IpResult :=
  match fetchBackupIpInfoTry env ip with
  | .ok r => r
  | .error _ => .failure "所有API请求失败"

/-! ## Request context -/

/-- The parts of the `Request` the handler reads: the method, the `ip` query
parameter (`url.searchParams.get('ip')`) and four headers. -/
structure Request where
  method : String
  ip : Option String := none
  cfConnectingIp : Option String := none
  userAgent : Option String := none
  acceptLanguage : Option String := none
  cfRay : Option String := none

/-- The object returned by `getBrowserInfo`, without `languages` and
`timestamp` (locale formatting is left out). -/
structure BrowserInfo where
  userAgent : String
  acceptLanguage : String
  cfRay : String
  cfConnectingIp : String
  browserName : String
  os : String
  isMobile : Bool
deriving DecidableEq, Repr

/-- Embeds `getBrowserInfo(request)`. -/
def getBrowserInfo (request : Request) : BrowserInfo :=
  let userAgent := orElse request.userAgent "未知"
  let acceptLanguage := orElse request.acceptLanguage "未知"
  let cfRay := orElse request.cfRay "未知"
  let cfConnectingIp := orElse request.cfConnectingIp "未知"
  let browserName :=
    if includes userAgent "Chrome" then "Google Chrome"
    else if includes userAgent "Firefox" then "Mozilla Firefox"
    else if includes userAgent "Safari" then "Apple Safari"
    else if includes userAgent "Edge" then "Microsoft Edge"
    else if includes userAgent "Opera" then "Opera"
    else "未知浏览器"
  let os :=
    if includes userAgent "Windows" then "Windows"
    else if includes userAgent "Macintosh" then "macOS"
    else if includes userAgent "Linux" then "Linux"
    else if includes userAgent "Android" then "Android"
    else if includes userAgent "iOS" then "iOS"
    else "未知操作系统"
  { userAgent := userAgent, acceptLanguage := acceptLanguage, cfRay := cfRay,
    cfConnectingIp := cfConnectingIp, browserName := browserName, os := os,
    isMobile := includes userAgent "Mobile" }

/-! ## Page rendering -/

/-- Embeds `searchForm()`. -/
def searchForm : String :=
  "\n    <div class=\"box\" style=\"max-width: 700px; margin: 2rem auto 0; animation: fadeInUp 0.6s ease-out;\">\n      <form action=\"/\" method=\"get\">\n        <div class=\"field has-addons\">\n          <div class=\"control is-expanded\">\n            <input class=\"input is-medium\" type=\"text\" name=\"ip\" placeholder=\"请输入IP地址 (例如: 8.8.8.8)\" pattern=\"\\b(?:\\d\x7b1,3\x7d\\.)\x7b3\x7d\\d\x7b1,3\x7d\\b\" title=\"请输入有效的IP地址\" required>\n          </div>\n          <div class=\"control\">\n            <button class=\"button is-medium btn-gradient\" type=\"submit\">\n              <i class=\"fas fa-search\"></i> 查询\n            </button>\n          </div>\n        </div>\n        <p class=\"help has-text-centered\">提示：不输入IP地址将查询您当前的IP信息</p>\n      </form>\n    </div>\n  "

/-- Embeds `formatNoDataMessage(errorMessage = '')`: the panel around
`errorMessage || '未找到该IP地址的相关信息'`. -/
def formatNoDataMessage (errorMessage : Option String) : String :=
  "\n    <div class=\"container has-text-centered\">\n      <div class=\"notification is-warning\" style=\"max-width: 600px; margin: 0 auto;\">\n        <button class=\"delete\"></button>\n        <i class=\"fas fa-exclamation-triangle\"></i> \n        "
  ++ orElse errorMessage "未找到该IP地址的相关信息"
  ++ "\n      </div>\n      <div class=\"content mt-5\">\n        <h3 class=\"title is-5\">可能原因：</h3>\n        <div class=\"tags is-centered\">\n          <span class=\"tag is-warning\">IP地址不存在</span>\n          <span class=\"tag is-warning\">API请求限制</span>\n          <span class=\"tag is-warning\">网络连接问题</span>\n        </div>\n        <div class=\"mt-4\">\n          <p>请尝试以下方法：</p>\n          <ul class=\"has-text-left\" style=\"display: inline-block; text-align: left;\">\n            <li>检查IP地址是否正确</li>\n            <li>确认网络连接正常</li>\n            <li>尝试查询其他公共IP（如8.8.8.8）</li>\n            <li>稍后重试</li>\n          </ul>\n        </div>\n      </div>\n    </div>\n  "

/-- The property `data[key]` of a record. -/
def IpRecord.get (data : IpRecord) : String → Option String
  | "ip" => data.ip
  | "city" => data.city
  | "region" => data.region
  | "country" => data.country
  | "loc" => data.loc
  | "org" => data.org
  | "postal" => data.postal
  | "timezone" => data.timezone
  | "hostname" => data.hostname
  | "isp" => data.isp
  | "asn" => data.asn
  | _ => none

/-- The object `fieldMap` of `formatDataAsHtml`. -/
def fieldMap : List (String × String) :=
  [("ip", "IP地址"), ("city", "城市"), ("region", "地区"), ("country", "国家"),
   ("loc", "经纬度"), ("org", "组织"), ("postal", "邮政编码"), ("timezone", "时区"),
   ("isp", "ISP提供商"), ("asn", "ASN"), ("hostname", "主机名"), ("regionName", "地区名称")]

/-- The object `iconMap` of `formatDataAsHtml`. -/
def iconMap : List (String × String) :=
  [("ip", "fa-address-card"), ("city", "fa-city"), ("region", "fa-map-marked-alt"),
   ("country", "fa-flag"), ("loc", "fa-map-marker-alt"), ("org", "fa-building"),
   ("isp", "fa-network-wired"), ("asn", "fa-project-diagram"), ("timezone", "fa-clock"),
   ("hostname", "fa-server")]

/-- The constant `importantKeys` of `createInfoCards`. -/
def importantKeys : List String :=
  ["ip", "city", "region", "country", "org", "isp", "asn", "timezone", "hostname"]

/-- One `replace(/c/g, r)`. -/
def replaceAll (c : Char) (r : String) (text : String) : String :=
  ⟨text.data.flatMap fun x => if x = c then r.data else [x]⟩

/-- Embeds `escapeHtml(text)` on a string. -/
def escapeHtml (text : String) : String :=
  replaceAll (Char.ofNat 39) "&#039;"
    (replaceAll (Char.ofNat 34) "&quot;"
      (replaceAll '>' "&gt;" (replaceAll '<' "&lt;" (replaceAll '&' "&amp;" text))))

/-- The holes of one card of `createInfoCards`. -/
structure InfoCard where
  icon : String
  displayKey : String
  value : String
deriving DecidableEq, Repr

/-- Embeds `createInfoCards(data)`: one card per important key whose value is
neither missing nor empty. -/
def createInfoCards (data : IpRecord) : List InfoCard :=
  importantKeys.filterMap fun key =>
    match data.get key with
    | none => none
    | some v =>
      if v = "" then none
      else some
        { icon := match iconMap.lookup key with
            | some i => "<i class=\"fas " ++ i ++ "\"></i> "
            | none => "",
          displayKey := (fieldMap.lookup key).getD key,
          value := escapeHtml v }

/-- The holes of `createLocationSection`: `data.loc` and the first two pieces
of `data.loc.split(',')`. -/
structure LocationSection where
  loc : String
  latitude : String
  longitude : String
deriving DecidableEq, Repr

/-- Embeds `createLocationSection(data)`; `none` is the empty string. -/
def createLocationSection (data : IpRecord) : Option LocationSection :=
  match data.loc with
  | none => none
  | some loc =>
    if loc = "" then none
    else
      let parts := (loc.data.splitOn ',').map String.mk
      some { loc := loc, latitude := templ parts.head?, longitude := templ (parts.tail.head?) }

/-- The holes of the template of `formatDataAsHtml`. -/
structure DataHtml where
  cards : List InfoCard
  location : Option LocationSection
deriving DecidableEq, Repr

/-- Embeds `formatDataAsHtml(data)`. -/
def formatDataAsHtml (data : IpRecord) : DataHtml :=
  { cards := createInfoCards data, location := createLocationSection data }

/-- The computed holes of the template of `formatAdvancedAnalysis`; the other
holes are fields of `analysis`. -/
structure AdvancedHtml where
  riskColor : String
  riskBarColor : String
  proxyText : String
  asnClasses : List String
  registrationClasses : List String
  blacklistClass : String
  blacklistText : String
  listTags : List String
  analysis : AnalysisResult
deriving DecidableEq, Repr

/-- Embeds `formatAdvancedAnalysis(analysis)`. -/
def formatAdvancedAnalysis (analysis : AnalysisResult) : AdvancedHtml :=
  { riskColor :=
      if analysis.riskScore > 80 then "has-text-danger"
      else if analysis.riskScore > 50 then "has-text-warning" else "has-text-success",
    riskBarColor :=
      if analysis.riskScore > 80 then "var(--high-risk)"
      else if analysis.riskScore > 50 then "var(--medium-risk)" else "var(--low-risk)",
    proxyText :=
      if analysis.proxyDetection.detected then analysis.proxyDetection.type else "未检测到",
    asnClasses := analysis.asnHistory.map fun asn => if asn.current then "current" else "",
    registrationClasses :=
      analysis.registrationHistory.map fun reg => if reg.current then "current" else "",
    blacklistClass := if analysis.blacklistStatus.isListed then "is-danger" else "is-success",
    blacklistText := if analysis.blacklistStatus.isListed then "已列入" else "未列入",
    listTags :=
      analysis.blacklistStatus.lists.map fun list =>
        if list.status = "已列入" then "is-danger" else "is-success",
    analysis := analysis }

/-- The computed holes of the template of `formatBrowserInfo`. -/
structure BrowserHtml where
  browserIcon : String
  osIcon : String
  deviceLabel : String
  info : BrowserInfo
deriving DecidableEq, Repr

/-- Embeds `formatBrowserInfo(browserInfo)`. -/
def formatBrowserInfo (browserInfo : BrowserInfo) : BrowserHtml :=
  { browserIcon :=
      if includes browserInfo.browserName "Chrome" then "fab fa-chrome"
      else if includes browserInfo.browserName "Firefox" then "fab fa-firefox"
      else if includes browserInfo.browserName "Safari" then "fab fa-safari"
      else if includes browserInfo.browserName "Edge" then "fab fa-edge"
      else if includes browserInfo.browserName "Opera" then "fab fa-opera"
      else "fas fa-globe",
    osIcon :=
      if includes browserInfo.os "Windows" then "fab fa-windows"
      else if includes browserInfo.os "macOS" then "fab fa-apple"
      else if includes browserInfo.os "Linux" then "fab fa-linux"
      else if includes browserInfo.os "Android" then "fab fa-android"
      else if includes browserInfo.os "iOS" then "fas fa-mobile-alt"
      else "fas fa-laptop",
    deviceLabel :=
      if browserInfo.isMobile then "<i class=\"fas fa-mobile-alt\"></i> 移动设备"
      else "<i class=\"fas fa-laptop\"></i> 桌面设备",
    info := browserInfo }

/-- The block shown when `displayIp` is truthy: the badge text and the value
of the `data-risk` attribute. -/
structure ResultHeader where
  displayIp : String
  dataRisk : Int
deriving DecidableEq, Repr

/-- The hole `!result || result.error ? formatNoDataMessage(...) : formatDataAsHtml(result)`. -/
inductive MainPanel where
  | noData (html : String)
  | data (html : DataHtml)
deriving DecidableEq, Repr

/-- The holes of the page template of `generateHtmlPage`, in source order;
`advanced = none` is the empty string of line 804. -/
structure Page where
  searchForm : String
  header : Option ResultHeader
  main : MainPanel
  advanced : Option AdvancedHtml
  browser : BrowserHtml
  footerYear : Int
  scriptIp : String
deriving DecidableEq, Repr

/-- The value `result?.advanced?.riskScore || 30`. -/
def pageRiskScore (result : Option IpResult) : Int :=
  match result with
  | some (.record _ (some advanced)) => if advanced.riskScore = 0 then 30 else advanced.riskScore
  | _ => 30

/-- Embeds `generateHtmlPage(displayIp, result, browserInfo)`;
`formatAdvancedAnalysis(undefined)` throws on `analysis.riskScore`. -/
def generateHtmlPage (env : Env) (displayIp : Option String) (result : Option IpResult)
    (browserInfo : BrowserInfo) : Except JsError Page :=
  let riskScore := pageRiskScore result
  let header : Option ResultHeader :=
    if truthy displayIp then some { displayIp := templNull displayIp, dataRisk := riskScore }
    else none
  let main : MainPanel :=
    match result with
    | none => .noData (formatNoDataMessage none)
    | some (.failure message) => .noData (formatNoDataMessage (some message))
    | some (.record data _) => .data (formatDataAsHtml data)
  let advanced : Except JsError (Option AdvancedHtml) :=
    match result with
    | some (.record _ (some analysis)) => .ok (some (formatAdvancedAnalysis analysis))
    | some (.record _ none) => .error ⟨env.typeErrorMessage "undefined.riskScore"⟩
    | _ => .ok none
  match advanced with
  | .error e => .error e
  | .ok advanced =>
    .ok { searchForm := searchForm, header := header, main := main, advanced := advanced,
          browser := formatBrowserInfo browserInfo, footerYear := env.currentYear,
          scriptIp := templNull displayIp }

/-! ## The handler -/

/-- The body of a `Response`: a plain string or the filled page template. -/
inductive Body where
  | text (s : String)
  | page (p : Page)
deriving DecidableEq, Repr

/-- A `Response`: status (200 when not given), `Content-Type`, body. -/
structure Response where
  status : Nat
  contentType : String
  body : Body
deriving DecidableEq, Repr

/-- The calls `handleRequest` makes itself, with their arguments. -/
inductive Call where
  | isValidIpAddress (ip : String)
  | fetchIpInfo (ip : Option String)
  | fetchBackupIpInfo (ip : Option String)
  | generateAdvancedIpAnalysis (ip : Option String) (basicData : IpRecord)
  | getBrowserInfo
  | generateHtmlPage (displayIp : Option String) (result : IpResult)
  | searchForm
deriving DecidableEq, Repr

/-- Lines 38 to 44 of `handleRequest`: collect the browser information and
answer with the page; an exception here is not caught. -/
def respondWithPage (env : Env) (request : Request) (displayIp : Option String)
    (calls : List Call) (result : IpResult) : List Call × Except JsError Response :=
  let browserInfo := getBrowserInfo request
  let calls := calls ++ [.getBrowserInfo, .generateHtmlPage displayIp result]
  match generateHtmlPage env displayIp (some result) browserInfo with
  | .error e => (calls, .error e)
  | .ok htmlContent => (calls, .ok { status := 200, contentType := "text/html", body := .page htmlContent })

/-- Embeds `handleRequest(request)`: the calls made, in order, and the
response (or the exception that escapes). -/
def handleRequest (env : Env) (g : Rand) (request : Request) :
    List Call × Except JsError Response :=
  let clientIp := request.ip
  let displayIp := jsOr clientIp request.cfConnectingIp
  if request.method = "GET" then
    -- `clientIp && !isValidIpAddress(clientIp)`
    let (calls, rejected) : List Call × Bool :=
      match clientIp with
      | some s => if s ≠ "" then ([.isValidIpAddress s], !isValidIpAddress s) else ([], false)
      | none => ([], false)
    if rejected then
      (calls, .ok { status := 400, contentType := "text/plain", body := .text "无效的IP地址格式" })
    else
      let calls := calls ++ [.fetchIpInfo displayIp]
      let result := fetchIpInfo env displayIp
      let (calls, result) :=
        if result.error then
          (calls ++ [.fetchBackupIpInfo displayIp], fetchBackupIpInfo env displayIp)
        else (calls, result)
      match result with
      | .failure message => respondWithPage env request displayIp calls (.failure message)
      | .record data _ =>
        let calls := calls ++ [.generateAdvancedIpAnalysis displayIp data]
        match generateAdvancedIpAnalysis env displayIp data g with
        | .error error =>
          (calls, .ok { status := 500, contentType := "text/plain",
                        body := .text ("获取数据时出错: " ++ error.message) })
        | .ok advanced => respondWithPage env request displayIp calls (.record data (some advanced))
  else
    ([.searchForm],
     .ok { status := 200, contentType := "text/html", body := .text searchForm })

/-! ## Vocabulary of the specification -/

/-- The words a regular expression denotes. -/
def Regex.Matches : Regex → List Char → Prop
  | .char c, w => w = [c]
  | .range lo hi, w => ∃ x, w = [x] ∧ lo.toNat ≤ x.toNat ∧ x.toNat ≤ hi.toNat
  | .seq a b, w => ∃ u v, w = u ++ v ∧ a.Matches u ∧ b.Matches v
  | .alt a b, w => a.Matches w ∨ b.Matches w
  | .opt a, w => a.Matches w ∨ w = []

/-- Value of a string of decimal digits. -/
def decimalValue (f : List Char) : Nat :=
  f.foldl (fun acc c => 10 * acc + (c.toNat - 48)) 0

/-- Spec: a field is 1 to 3 decimal digits whose value is in [0,255]. -/
def OctetField (f : String) : Prop :=
  1 ≤ f.length ∧ f.length ≤ 3 ∧ (∀ c ∈ f.data, c.isDigit = true) ∧ decimalValue f.data ≤ 255

/-- Spec: four fields separated by single dots, nothing before or after. -/
def DottedQuad (s : String) : Prop :=
  ∃ a b c d : String, s = a ++ "." ++ b ++ "." ++ c ++ "." ++ d ∧
    OctetField a ∧ OctetField b ∧ OctetField c ∧ OctetField d

/-- List form of `OctetField`, with the digit test spelled on code points. -/
def OctetChars (w : List Char) : Prop :=
  1 ≤ w.length ∧ w.length ≤ 3 ∧ (∀ c ∈ w, 48 ≤ c.toNat ∧ c.toNat ≤ 57) ∧ decimalValue w ≤ 255

/-- Spec: `record.country` is one of RU, CN, KP, IR, SY. -/
def HighRiskCountry (data : IpRecord) : Prop :=
  ∃ c ∈ ["RU", "CN", "KP", "IR", "SY"], data.country = some c

/-- Spec: `record.org` contains "Data Center" or "Hosting". -/
def OrgIsDataCenter (data : IpRecord) : Prop :=
  ∃ o, data.org = some o ∧ ("Data Center".data <:+: o.data ∨ "Hosting".data <:+: o.data)

/-- Spec: `ip` starts with one of the three exit-node prefixes. -/
def ExitNodeIp (ip : String) : Prop :=
  ∃ p ∈ ["199.249.230.", "185.220.100.", "193.189.100."], p.data <+: ip.data

/-- Spec: the bonus `b` is `k` if the condition holds and nothing otherwise. -/
def Bonus (cond : Prop) (k b : Int) : Prop :=
  (cond ∧ b = k) ∨ (¬cond ∧ b = 0)

/-- A draw that is 0. -/
def zeroDraw : Draw := ⟨0, 1, by decide⟩

/-- The record of the end-to-end example of the specification. -/
def googleRecord : IpRecord :=
  { ip := some "8.8.8.8", country := some "US", org := some "Google LLC" }

/-- A source of draws that are all 0. -/
def zeroRand : Rand := fun _ => zeroDraw

/-- A world in which both services are unreachable. -/
def offlineEnv : Env :=
  { currentYear := 2025, now := 1750000000000,
    fetch := fun _ => .networkError ⟨"network down"⟩,
    typeErrorMessage := fun what => "Cannot read properties: " ++ what }

/-- The analysis of `googleRecord` for the address 8.8.8.8 when every draw is 0. -/
def googleAnalysis : AnalysisResult :=
  { ipType := "IPv4", riskScore := 15, riskLevel := "低风险",
    asnHistory :=
      [{ asn := "AS0", org := "Google LLC", date := ⟨2025, "-01-01"⟩, current := true }],
    registrationHistory :=
      [{ country := "US", region := "未知", city := "未知", date := ⟨2025, "-01-01"⟩,
         current := true }],
    threatAnalysis :=
      { level := "低风险",
        description := "该IP地址表现正常，属于常规用户或可信服务提供商。",
        recommendations := ["保持常规安全监控", "无需特别限制操作"] },
    proxyDetection := { detected := false, type := "未检测到", confidence := "高" },
    hostingProvider := "Google Cloud",
    blacklistStatus :=
      { isListed := false,
        lists :=
          [{ list := "Spamhaus", status := "未列入", lastChecked := 1750000000000 },
           { list := "Barracuda", status := "未列入", lastChecked := 1750000000000 },
           { list := "SORBS", status := "未列入", lastChecked := 1750000000000 },
           { list := "AbuseIPDB", status := "未列入", lastChecked := 1750000000000 }] } }

/-- Spec: the request is a GET whose `ip` parameter is present, non-empty and
rejected by `isValidIpAddress`. -/
def Rejected (request : Request) : Prop :=
  request.method = "GET" ∧ ∃ s, request.ip = some s ∧ s ≠ "" ∧ isValidIpAddress s = false

/-- Spec: the call is to one of the two resolvers. -/
def Call.isResolver : Call → Bool
  | .fetchIpInfo _ => true
  | .fetchBackupIpInfo _ => true
  | _ => false

/-- Spec: the call is to the primary resolver. -/
def Call.isPrimary : Call → Bool
  | .fetchIpInfo _ => true
  | _ => false

/-- Spec: the call is to the fallback resolver. -/
def Call.isFallback : Call → Bool
  | .fetchBackupIpInfo _ => true
  | _ => false

/-- Spec: the call is to the analysis generator. -/
def Call.isAnalysis : Call → Bool
  | .generateAdvancedIpAnalysis _ _ => true
  | _ => false

/-- Spec: the record used is the primary's when it is not an error and the
fallback's otherwise. -/
def chosenResult (env : Env) (ip : Option String) : IpResult :=
  if (fetchIpInfo env ip).error then fetchBackupIpInfo env ip else fetchIpInfo env ip

/-- A result without its `advanced` property. -/
def IpResult.withoutAdvanced : IpResult → IpResult
  | .failure m => .failure m
  | .record data _ => .record data none

/-- The calls made while validating: one when the parameter is truthy. -/
def validationCalls (request : Request) : List Call :=
  match request.ip with
  | some s => if s ≠ "" then [.isValidIpAddress s] else []
  | none => []

/-- The resolver calls of a request that passed validation. -/
def resolverCalls (env : Env) (ip : Option String) : List Call :=
  if (fetchIpInfo env ip).error then [.fetchIpInfo ip, .fetchBackupIpInfo ip]
  else [.fetchIpInfo ip]

/-- A GET request whose `ip` parameter is not a dotted quad. -/
def badRequest : Request := { method := "GET", ip := some "8.8.8.256" }

/-- A GET request for the address 8.8.8.8. -/
def googleRequest : Request := { method := "GET", ip := some "8.8.8.8" }

/-- A POST request carrying a malformed `ip` parameter. -/
def postRequest : Request := { method := "POST", ip := some "not an ip" }

/-- Spec: the address that is looked up: the `ip` parameter when it is
truthy, otherwise the `CF-Connecting-IP` header value. -/
def lookedUpIp (request : Request) : Option String :=
  jsOr request.ip request.cfConnectingIp

/-- Spec: the text `s` contains the text `sub`. -/
def Contains (s sub : String) : Prop :=
  ∃ pre post : String, s = pre ++ sub ++ post

/-- The URL requested by `fetchIpInfo(ip)`. -/
def primaryUrl (ip : Option String) : String :=
  "https://ipinfo.io/" ++ templNull ip ++ "/json?token=free"

/-- The URL requested by `fetchBackupIpInfo(ip)`. -/
def backupUrl (ip : Option String) : String :=
  "http://ip-api.com/json/" ++ templNull ip ++ "?fields=66846719"

/-- Spec: the mapping of the fallback provider's JSON onto the common record. -/
def backupRecord (ip : Option String) (json : String → Option String) : IpRecord :=
  { ip := ip, city := json "city", region := json "regionName", country := json "country",
    loc := some (templ (json "lat") ++ "," ++ templ (json "lon")),
    org := json "org", isp := json "isp", asn := json "as", postal := json "zip",
    timezone := json "timezone", hostname := json "reverse" }

/-- A body of the fallback provider for 8.8.8.8. -/
def googleJson : String → Option String := fun k =>
  if k = "isp" then some "Google LLC"
  else if k = "as" then some "AS15169 Google LLC"
  else if k = "org" then some "Google Public DNS"
  else if k = "country" then some "United States"
  else if k = "lat" then some "39.03"
  else if k = "lon" then some "-77.5"
  else none

/-- A world in which the primary service answers 429 and the fallback
service answers with `googleJson`. -/
def fallbackEnv : Env :=
  { currentYear := 2025, now := 1750000000000,
    fetch := fun url =>
      if url = "http://ip-api.com/json/8.8.8.8?fields=66846719" then
        .response true (.value googleJson)
      else .response false .null,
    typeErrorMessage := fun what => "Cannot read properties: " ++ what }

/-- Spec: `label` is the label of the first key of `table`, in order, that
occurs in `text`. -/
def FirstMatch (table : List (String × String)) (text label : String) : Prop :=
  ∃ (pre : List (String × String)) (key : String) (post : List (String × String)),
    table = pre ++ (key, label) :: post ∧ key.data <:+: text.data ∧
    ∀ kv ∈ pre, ¬kv.1.data <:+: text.data

/-- Spec: the browser substrings and their labels, in the order they are tried. -/
def browserLabels : List (String × String) :=
  [("Chrome", "Google Chrome"), ("Firefox", "Mozilla Firefox"), ("Safari", "Apple Safari"),
   ("Edge", "Microsoft Edge"), ("Opera", "Opera")]

/-- A request from a browser whose User-Agent names Chrome, Safari and Edge. -/
def edgeRequest : Request :=
  { method := "GET",
    userAgent := some "Mozilla/5.0 AppleWebKit/537.36 Chrome/120.0 Safari/537.36 Edge/120.0" }

/-- Spec: `record.org` contains one of the listed VPN provider names. -/
def OrgNamesProxy (data : IpRecord) : Prop :=
  ∃ o, data.org = some o ∧
    ∃ p ∈ ["NordVPN", "ExpressVPN", "Surfshark", "CyberGhost", "Private Internet Access",
           "Tor Network", "Proxyservice", "VPN"], p.data <:+: o.data

/-- Spec: `ip` starts with one of the six exit-node prefixes of `detectProxyUsage`. -/
def TorRangeIp (ip : String) : Prop :=
  ∃ p ∈ ["199.249.230.", "185.220.100.", "193.189.100.",
         "104.244.46.", "51.222.106.", "71.19.154."], p.data <+: ip.data

/-- A record of a hosting company. -/
def hostingRecord : IpRecord :=
  { ip := some "203.0.113.7", country := some "DE", org := some "Example Hosting GmbH" }

/-- Spec: the call renders the page. -/
def Call.isRender : Call → Bool
  | .generateHtmlPage _ _ => true
  | _ => false

/-- A world in which both services answer every request with `googleJson`. -/
def answeringEnv : Env :=
  { currentYear := 2025, now := 1750000000000,
    fetch := fun _ => .response true (.value googleJson),
    typeErrorMessage := fun what => "Cannot read properties: " ++ what }

/-- A GET request without `ip` parameter and without `CF-Connecting-IP` header. -/
def anonymousRequest : Request := { method := "GET" }

/-- The record `fetchIpInfo` builds from `googleJson`. -/
def dnsRecord : IpRecord :=
  { country := some "United States", org := some "Google Public DNS" }

/-- A GET request whose `ip` parameter is the IPv6 loopback address. -/
def loopbackRequest : Request := { method := "GET", ip := some "::1" }

/-- Spec: the row of `generateRegistrationHistory` for Los Angeles. -/
def losAngelesRow (currentYear : Int) : RegEntry :=
  { country := "US", region := "California", city := "Los Angeles",
    date := ⟨currentYear - 2, "-05-12"⟩, current := false }

/-- Spec: a history starts with the only current entry, dated January 1 of
the current year, has at most two more entries, and its years strictly
decrease. -/
def WellFormedHistory (currentYear : Int) (dates : List HistDate) (current : List Bool) :
    Prop :=
  1 ≤ dates.length ∧ dates.length ≤ 3 ∧
  dates.head? = some ⟨currentYear, "-01-01"⟩ ∧
  current.head? = some true ∧ (∀ c ∈ current.tail, c = false) ∧
  (∀ d ∈ dates.tail, d.year < currentYear) ∧
  (dates.map HistDate.year).Pairwise (fun a b => b < a)

/-- A source of draws that are all 9/10. -/
def highRand : Rand := fun _ => ⟨9, 10, by decide⟩

/-- A record located in the United States. -/
def usRecord : IpRecord := { country := some "US", asn := some "AS15169" }

/-- A source of draws whose first is 4/5 and whose others are 0. -/
def listedThenZeroRand : Rand := fun n => if n = 0 then ⟨4, 5, by decide⟩ else zeroDraw

/-- Spec: the call validates an address. -/
def Call.isValidation : Call → Bool
  | .isValidIpAddress _ => true
  | _ => false

/-- A GET request without `ip` parameter whose `CF-Connecting-IP` header is an
IPv6 address. -/
def headerRequest : Request := { method := "GET", cfConnectingIp := some "2001:db8::1" }

/-! ## Theorems -/

/-! ### The validator -/

theorem Regex.mem_run (r : Regex) : ∀ (s rest : List Char),
    rest ∈ r.run s ↔ ∃ w, s = w ++ rest ∧ r.Matches w := by
  induction r with
  | char c =>
    intro s rest
    cases s with
    | nil => simp [Regex.run, Regex.Matches]
    | cons x xs =>
      simp only [Regex.run, Regex.Matches]
      constructor
      · intro h
        split at h
        · simp at h; subst h; subst_vars; exact ⟨[x], by simp, rfl⟩
        · simp at h
      · rintro ⟨w, hw, rfl⟩
        simp at hw
        simp [hw.1, hw.2]
  | range lo hi =>
    intro s rest
    cases s with
    | nil => simp [Regex.run, Regex.Matches]
    | cons x xs =>
      simp only [Regex.run, Regex.Matches]
      constructor
      · intro h
        split at h
        · simp at h; subst h; exact ⟨[x], by simp, x, rfl, by assumption⟩
        · simp at h
      · rintro ⟨w, hw, y, rfl, hy⟩
        simp at hw
        obtain ⟨rfl, rfl⟩ := hw
        simp [hy]
  | seq a b iha ihb =>
    intro s rest
    simp only [Regex.run, Regex.Matches, List.mem_flatMap, iha, ihb]
    constructor
    · rintro ⟨mid, ⟨u, rfl, hu⟩, v, rfl, hv⟩
      exact ⟨u ++ v, by simp, u, v, rfl, hu, hv⟩
    · rintro ⟨w, rfl, u, v, rfl, hu, hv⟩
      exact ⟨v ++ rest, ⟨u, by simp, hu⟩, v, rfl, hv⟩
  | alt a b iha ihb =>
    intro s rest
    simp only [Regex.run, Regex.Matches, List.mem_append, iha, ihb]
    constructor
    · rintro (⟨w, rfl, h⟩ | ⟨w, rfl, h⟩)
      · exact ⟨w, rfl, Or.inl h⟩
      · exact ⟨w, rfl, Or.inr h⟩
    · rintro ⟨w, rfl, h | h⟩
      · exact Or.inl ⟨w, rfl, h⟩
      · exact Or.inr ⟨w, rfl, h⟩
  | opt a iha =>
    intro s rest
    simp only [Regex.run, Regex.Matches, List.mem_append, iha, List.mem_singleton]
    constructor
    · rintro (⟨w, rfl, h⟩ | rfl)
      · exact ⟨w, rfl, Or.inl h⟩
      · exact ⟨[], rfl, Or.inr rfl⟩
    · rintro ⟨w, rfl, h | rfl⟩
      · exact Or.inl ⟨w, rfl, h⟩
      · exact Or.inr rfl

theorem Regex.test_iff (r : Regex) (s : String) : r.test s = true ↔ r.Matches s.data := by
  unfold Regex.test
  rw [List.any_eq_true]
  constructor
  · rintro ⟨x, hx, hnil⟩
    have : x = [] := by simpa using hnil
    subst this
    obtain ⟨w, hw, hm⟩ := (Regex.mem_run r _ _).1 hx
    simp at hw
    rw [hw]; exact hm
  · intro h
    exact ⟨[], (Regex.mem_run r _ _).2 ⟨s.data, by simp, h⟩, rfl⟩
theorem isDigit_iff (c : Char) : c.isDigit = true ↔ 48 ≤ c.toNat ∧ c.toNat ≤ 57 := by
  simp only [Char.isDigit, Char.toNat, Bool.and_eq_true, decide_eq_true_eq, ge_iff_le,
    UInt32.le_def, BitVec.le_def]
  exact Iff.rfl

theorem char_eq_of_toNat {c d : Char} (h : c.toNat = d.toNat) : c = d := by
  rw [← Char.ofNat_toNat c, ← Char.ofNat_toNat d, h]

theorem octet_matches_sound (w : List Char) (h : octet.Matches w) : OctetChars w := by
  have h0 : '0'.toNat = 48 := rfl
  have h1 : '1'.toNat = 49 := rfl
  have h2 : '2'.toNat = 50 := rfl
  have h4 : '4'.toNat = 52 := rfl
  have h5 : '5'.toNat = 53 := rfl
  have h9 : '9'.toNat = 57 := rfl
  simp only [octet, Regex.Matches, h0, h1, h4, h5, h9] at h
  rcases h with ⟨u, v, rfl, rfl, u2, v2, rfl, rfl, x, rfl, hx⟩ |
    ⟨u, v, rfl, rfl, u2, v2, rfl, ⟨y, rfl, hy⟩, x, rfl, hx⟩ |
    ⟨u, v, rfl, hu, u2, v2, rfl, ⟨y, rfl, hy⟩, hv⟩
  · refine ⟨by simp, by simp, ?_, ?_⟩
    · intro c hc
      simp at hc
      rcases hc with rfl | rfl | rfl <;> omega
    · simp [decimalValue, h2, h5]; omega
  · refine ⟨by simp, by simp, ?_, ?_⟩
    · intro c hc
      simp at hc
      rcases hc with rfl | rfl | rfl <;> omega
    · simp [decimalValue, h2]; omega
  · rcases hu with ⟨a, rfl, ha⟩ | rfl <;> rcases hv with ⟨z, rfl, hz⟩ | rfl
    · refine ⟨by simp, by simp, ?_, ?_⟩
      · intro c hc
        simp at hc
        rcases hc with rfl | rfl | rfl <;> omega
      · simp [decimalValue]; omega
    · refine ⟨by simp, by simp, ?_, ?_⟩
      · intro c hc
        simp at hc
        rcases hc with rfl | rfl <;> omega
      · simp [decimalValue]; omega
    · refine ⟨by simp, by simp, ?_, ?_⟩
      · intro c hc
        simp at hc
        rcases hc with rfl | rfl <;> omega
      · simp [decimalValue]; omega
    · refine ⟨by simp, by simp, ?_, ?_⟩
      · intro c hc
        simp at hc
        subst hc; omega
      · simp [decimalValue]; omega

theorem octet_matches_complete (w : List Char) (h : OctetChars w) : octet.Matches w := by
  have h0 : '0'.toNat = 48 := rfl
  have h1 : '1'.toNat = 49 := rfl
  have h2 : '2'.toNat = 50 := rfl
  have h4 : '4'.toNat = 52 := rfl
  have h5 : '5'.toNat = 53 := rfl
  have h9 : '9'.toNat = 57 := rfl
  obtain ⟨hlo, hhi, hdig, hval⟩ := h
  simp only [octet, Regex.Matches, h0, h1, h4, h5, h9]
  match w, hlo, hhi, hdig, hval with
  | [x], _, _, hdig, _ =>
    have hx := hdig x (by simp)
    exact Or.inr (Or.inr ⟨[], [x], rfl, Or.inr rfl, [x], [], rfl, ⟨x, rfl, hx⟩, Or.inr rfl⟩)
  | [x, y], _, _, hdig, _ =>
    have hx := hdig x (by simp)
    have hy := hdig y (by simp)
    exact Or.inr (Or.inr ⟨[], [x, y], rfl, Or.inr rfl, [x], [y], rfl, ⟨x, rfl, hx⟩,
      Or.inl ⟨y, rfl, hy⟩⟩)
  | [x, y, z], _, _, hdig, hval =>
    have hx := hdig x (by simp)
    have hy := hdig y (by simp)
    have hz := hdig z (by simp)
    simp [decimalValue] at hval
    by_cases hx1 : x.toNat ≤ 49
    · exact Or.inr (Or.inr ⟨[x], [y, z], rfl, Or.inl ⟨x, rfl, hx.1, hx1⟩, [y], [z], rfl,
        ⟨y, rfl, hy⟩, Or.inl ⟨z, rfl, hz⟩⟩)
    · have hx2 : x = '2' := char_eq_of_toNat (by rw [h2]; omega)
      subst hx2
      by_cases hy4 : y.toNat ≤ 52
      · exact Or.inr (Or.inl ⟨['2'], [y, z], rfl, rfl, [y], [z], rfl, ⟨y, rfl, hy.1, hy4⟩,
          z, rfl, hz⟩)
      · have hy5 : y = '5' := char_eq_of_toNat (by rw [h5]; rw [h2] at hval; omega)
        subst hy5
        exact Or.inl ⟨['2'], ['5', z], rfl, rfl, ['5'], [z], rfl, rfl, z, rfl, hz.1,
          by rw [h2, h5] at hval; omega⟩
  | [], hlo, _, _, _ => exact absurd hlo (by simp)
  | _ :: _ :: _ :: _ :: _, _, hhi, _, _ => exact absurd hhi (by simp)

theorem octet_matches_iff (w : List Char) : octet.Matches w ↔ OctetChars w :=
  ⟨octet_matches_sound w, octet_matches_complete w⟩

theorem octetField_iff (f : String) : OctetField f ↔ OctetChars f.data := by
  unfold OctetField OctetChars
  simp only [isDigit_iff]
  exact Iff.rfl

theorem ipv4Regex_matches_iff (w : List Char) :
    ipv4Regex.Matches w ↔ ∃ a b c d : List Char,
      w = a ++ '.' :: (b ++ '.' :: (c ++ '.' :: d)) ∧
      OctetChars a ∧ OctetChars b ∧ OctetChars c ∧ OctetChars d := by
  have key : ipv4Regex.Matches w ↔ ∃ a r1, w = a ++ r1 ∧ octet.Matches a ∧
      ∃ p1 r2, r1 = p1 ++ r2 ∧ p1 = ['.'] ∧ ∃ b r3, r2 = b ++ r3 ∧ octet.Matches b ∧
      ∃ p2 r4, r3 = p2 ++ r4 ∧ p2 = ['.'] ∧ ∃ c r5, r4 = c ++ r5 ∧ octet.Matches c ∧
      ∃ p3 d, r5 = p3 ++ d ∧ p3 = ['.'] ∧ octet.Matches d := Iff.rfl
  rw [key]
  simp only [octet_matches_iff]
  constructor
  · rintro ⟨a, _, rfl, ha, _, _, rfl, rfl, b, _, rfl, hb, _, _, rfl, rfl, c, _, rfl, hc,
      _, d, rfl, rfl, hd⟩
    exact ⟨a, b, c, d, by simp, ha, hb, hc, hd⟩
  · rintro ⟨a, b, c, d, rfl, ha, hb, hc, hd⟩
    exact ⟨a, _, rfl, ha, ['.'], _, rfl, rfl, b, _, rfl, hb, ['.'], _, rfl, rfl, c, _, rfl, hc,
      ['.'], d, rfl, rfl, hd⟩

theorem dottedQuad_iff (s : String) : DottedQuad s ↔ ipv4Regex.Matches s.data := by
  rw [ipv4Regex_matches_iff]
  constructor
  · rintro ⟨a, b, c, d, rfl, ha, hb, hc, hd⟩
    exact ⟨a.data, b.data, c.data, d.data, by simp [String.data_append],
      (octetField_iff a).1 ha, (octetField_iff b).1 hb, (octetField_iff c).1 hc,
      (octetField_iff d).1 hd⟩
  · rintro ⟨a, b, c, d, hs, ha, hb, hc, hd⟩
    refine ⟨⟨a⟩, ⟨b⟩, ⟨c⟩, ⟨d⟩, ?_, (octetField_iff _).2 ha, (octetField_iff _).2 hb,
      (octetField_iff _).2 hc, (octetField_iff _).2 hd⟩
    apply String.ext
    simp [String.data_append, hs]

/-- C1: `isValidIpAddress(s)` is true exactly for strings made of four decimal
fields separated by single dots, each of 1 to 3 digits and of value at most 255,
with nothing before or after; "8.8.8.8" is accepted and "8.8.8.256", "::1" and
the empty string are rejected. -/
theorem isValidIpAddress_iff_dottedQuad :
    (∀ s : String, isValidIpAddress s = true ↔ DottedQuad s) ∧
    isValidIpAddress "8.8.8.8" = true ∧ isValidIpAddress "8.8.8.256" = false ∧
    isValidIpAddress "::1" = false ∧ isValidIpAddress "" = false := by
  refine ⟨fun s => ?_, by decide, by decide, by decide, by decide⟩
  rw [dottedQuad_iff, isValidIpAddress, Regex.test_iff]

/-! ### The risk score -/

theorem includes_iff (s sub : String) : includes s sub = true ↔ sub.data <:+: s.data := by
  unfold includes
  rw [List.any_eq_true, List.infix_iff_prefix_suffix]
  constructor
  · rintro ⟨t, ht, hp⟩
    exact ⟨t, List.isPrefixOf_iff_prefix.1 hp, (List.mem_tails _ _).1 ht⟩
  · rintro ⟨t, hp, ht⟩
    exact ⟨t, (List.mem_tails _ _).2 ht, List.isPrefixOf_iff_prefix.2 hp⟩

theorem startsWith_iff (s p : String) : startsWith s p = true ↔ p.data <+: s.data := by
  unfold startsWith
  exact List.isPrefixOf_iff_prefix

theorem countryBonusApplies_iff (data : IpRecord) :
    countryBonusApplies data = true ↔ HighRiskCountry data := by
  unfold countryBonusApplies HighRiskCountry highRiskCountries
  cases h : data.country with
  | none => simp
  | some c =>
    simp only [Bool.and_eq_true, decide_eq_true_eq, List.contains_eq_any_beq, List.any_eq_true, beq_iff_eq,
      Option.some.injEq]
    constructor
    · rintro ⟨-, x, hx, hxc⟩
      exact ⟨x, hx, hxc⟩
    · rintro ⟨x, hx, hxc⟩
      subst hxc
      refine ⟨?_, _, hx, rfl⟩
      intro h0
      subst h0
      revert hx
      decide

theorem dataCenterOrg_iff (data : IpRecord) :
    dataCenterOrg data = true ↔ OrgIsDataCenter data := by
  unfold dataCenterOrg OrgIsDataCenter
  cases h : data.org with
  | none => simp
  | some o =>
    simp only [Bool.and_eq_true, Bool.or_eq_true, decide_eq_true_eq, includes_iff,
      Option.some.injEq]
    constructor
    · rintro ⟨-, ho⟩
      exact ⟨o, rfl, ho⟩
    · rintro ⟨x, rfl, ho⟩
      refine ⟨?_, ho⟩
      intro h0
      subst h0
      revert ho
      decide

theorem torExits_any_iff (ip : String) :
    torExits.any (fun p => startsWith ip p) = true ↔ ExitNodeIp ip := by
  unfold ExitNodeIp torExits
  rw [List.any_eq_true]
  simp only [startsWith_iff]

theorem floorMul_lt (d : Draw) (k : Nat) (hk : 0 < k) : d.floorMul k < k := by
  unfold Draw.floorMul
  have hden : 0 < d.den := Nat.lt_of_le_of_lt (Nat.zero_le _) d.lt
  rw [Nat.div_lt_iff_lt_mul hden]
  exact Nat.mul_lt_mul_of_pos_left d.lt hk

/-- C2: for every IP string, record and random draw, `calculateRiskScore`
returns an integer between 0 and 100. -/
theorem calculateRiskScore_range (ip : String) (data : IpRecord) (d : Draw) :
    0 ≤ calculateRiskScore ip data d ∧ calculateRiskScore ip data d ≤ 100 := by
  unfold calculateRiskScore
  exact ⟨le_min (le_max_right _ _) (by decide), min_le_right _ _⟩

/-- C4: the score is the clamp to [0,100] of 20, plus 30 for a high-risk
country, plus 25 for a data-centre organisation, plus 40 for an exit-node
prefix, plus a jitter between -5 and 5; with no bonus (as for 8.8.8.8, "US",
"Google LLC") it lies between 15 and 25. -/
theorem calculateRiskScore_formula (ip : String) (data : IpRecord) (d : Draw) :
    (∃ b1 b2 b3 j : Int,
      Bonus (HighRiskCountry data) 30 b1 ∧ Bonus (OrgIsDataCenter data) 25 b2 ∧
      Bonus (ExitNodeIp ip) 40 b3 ∧ j = ((d.floorMul 10 : Nat) : Int) - 5 ∧ -5 ≤ j ∧ j ≤ 5 ∧
      calculateRiskScore ip data d = min (max (20 + b1 + b2 + b3 + j) 0) 100) ∧
    (¬HighRiskCountry data → ¬OrgIsDataCenter data → ¬ExitNodeIp ip →
      15 ≤ calculateRiskScore ip data d ∧ calculateRiskScore ip data d ≤ 25) ∧
    15 ≤ calculateRiskScore "8.8.8.8" googleRecord d ∧
    calculateRiskScore "8.8.8.8" googleRecord d ≤ 25 := by
  have hj := floorMul_lt d 10 (by decide)
  have key : ∀ (ip : String) (data : IpRecord),
      calculateRiskScore ip data d =
        min (max (20 + (if countryBonusApplies data then 30 else 0)
          + (if dataCenterOrg data then 25 else 0)
          + (if torExits.any (fun p => startsWith ip p) then 40 else 0)
          + (((d.floorMul 10 : Nat) : Int) - 5)) 0) 100 := by
    intro ip data
    unfold calculateRiskScore
    dsimp only
    split <;> split <;> split <;> (congr 2; omega)
  have nobonus : ∀ (ip : String) (data : IpRecord), countryBonusApplies data = false →
      dataCenterOrg data = false → torExits.any (fun p => startsWith ip p) = false →
      15 ≤ calculateRiskScore ip data d ∧ calculateRiskScore ip data d ≤ 25 := by
    intro ip data h1 h2 h3
    rw [key, h1, h2, h3]
    simp only [Bool.false_eq_true, if_false]
    constructor
    · exact le_min (le_max_of_le_left (by omega)) (by decide)
    · exact (min_le_left _ _).trans (max_le (by omega) (by decide))
  refine ⟨⟨if countryBonusApplies data then 30 else 0, if dataCenterOrg data then 25 else 0,
    if torExits.any (fun p => startsWith ip p) then 40 else 0, ((d.floorMul 10 : Nat) : Int) - 5,
    ?_, ?_, ?_, rfl, by omega, by omega, key ip data⟩, ?_, nobonus _ _ (by decide) (by decide)
      (by decide)⟩
  · by_cases h : countryBonusApplies data = true
    · exact Or.inl ⟨(countryBonusApplies_iff data).1 h, by simp [h]⟩
    · exact Or.inr ⟨fun hc => h ((countryBonusApplies_iff data).2 hc), by simp [h]⟩
  · by_cases h : dataCenterOrg data = true
    · exact Or.inl ⟨(dataCenterOrg_iff data).1 h, by simp [h]⟩
    · exact Or.inr ⟨fun hc => h ((dataCenterOrg_iff data).2 hc), by simp [h]⟩
  · by_cases h : torExits.any (fun p => startsWith ip p) = true
    · exact Or.inl ⟨(torExits_any_iff ip).1 h, by simp [h]⟩
    · exact Or.inr ⟨fun hc => h ((torExits_any_iff ip).2 hc), by simp [h]⟩
  · intro h1 h2 h3
    refine nobonus ip data ?_ ?_ ?_
    · exact Bool.eq_false_iff.2 fun h => h1 ((countryBonusApplies_iff data).1 h)
    · exact Bool.eq_false_iff.2 fun h => h2 ((dataCenterOrg_iff data).1 h)
    · exact Bool.eq_false_iff.2 fun h => h3 ((torExits_any_iff ip).1 h)

/-- Witness for C4: the address 1.2.3.4 with an empty record earns no bonus. -/
theorem calculateRiskScore_formula_witness :
    15 ≤ calculateRiskScore "1.2.3.4" {} zeroDraw ∧
    calculateRiskScore "1.2.3.4" {} zeroDraw ≤ 25 :=
  (calculateRiskScore_formula "1.2.3.4" {} zeroDraw).2.1
    (fun h => absurd ((countryBonusApplies_iff _).2 h) (by decide))
    (fun h => absurd ((dataCenterOrg_iff _).2 h) (by decide))
    (fun h => absurd ((torExits_any_iff _).2 h) (by decide))

/-! ### Risk tiers -/

/-- C3: in every result of `generateAdvancedIpAnalysis`, `riskLevel` is the
high tier above 80, the medium tier above 50 and up to 80, the low tier up to
50, and `threatAnalysis.level`, computed from the same score, equals it. -/
theorem riskLevel_matches_tiers (env : Env) (ip : Option String) (data : IpRecord) (g : Rand)
    (a : AnalysisResult) (h : generateAdvancedIpAnalysis env ip data g = .ok a) :
    (80 < a.riskScore → a.riskLevel = "高风险") ∧
    (50 < a.riskScore → a.riskScore ≤ 80 → a.riskLevel = "中风险") ∧
    (a.riskScore ≤ 50 → a.riskLevel = "低风险") ∧
    a.threatAnalysis = generateThreatAnalysis a.riskScore ∧
    a.threatAnalysis.level = a.riskLevel := by
  cases ip with
  | none => simp [generateAdvancedIpAnalysis] at h
  | some s =>
    simp only [generateAdvancedIpAnalysis, Except.ok.injEq] at h
    subst h
    dsimp only
    refine ⟨fun h1 => ?_, fun h1 h2 => ?_, fun h1 => ?_, rfl, ?_⟩
    · exact if_pos h1
    · exact (if_neg (by omega)).trans (if_pos h1)
    · exact (if_neg (by omega)).trans (if_neg (by omega))
    · simp only [generateThreatAnalysis]
      split
      · rfl
      · split <;> rfl

/-- Witness for C3: the analysis of 8.8.8.8 with all draws 0. -/
theorem riskLevel_matches_tiers_witness :
    generateAdvancedIpAnalysis offlineEnv (some "8.8.8.8") googleRecord zeroRand
      = .ok googleAnalysis ∧
    googleAnalysis.threatAnalysis.level = googleAnalysis.riskLevel :=
  ⟨rfl, (riskLevel_matches_tiers offlineEnv (some "8.8.8.8") googleRecord zeroRand
    googleAnalysis rfl).2.2.2.2⟩

/-! ### The handler -/

theorem handleRequest_other (env : Env) (g : Rand) (request : Request)
    (h : request.method ≠ "GET") :
    handleRequest env g request =
      ([.searchForm], .ok { status := 200, contentType := "text/html", body := .text searchForm }) := by
  unfold handleRequest
  simp [h]

theorem handleRequest_rejected (env : Env) (g : Rand) (request : Request) (s : String)
    (h : request.method = "GET") (hs : request.ip = some s) (hne : s ≠ "")
    (hbad : isValidIpAddress s = false) :
    handleRequest env g request =
      ([.isValidIpAddress s],
       .ok { status := 400, contentType := "text/plain", body := .text "无效的IP地址格式" }) := by
  unfold handleRequest
  simp [h, hs, hne, hbad]

theorem handleRequest_accepted (env : Env) (g : Rand) (request : Request)
    (h : request.method = "GET") (hok : ¬Rejected request) :
    handleRequest env g request =
      match chosenResult env (jsOr request.ip request.cfConnectingIp) with
      | .failure message =>
        respondWithPage env request (jsOr request.ip request.cfConnectingIp)
          (validationCalls request ++ resolverCalls env (jsOr request.ip request.cfConnectingIp))
          (.failure message)
      | .record data _ =>
        match generateAdvancedIpAnalysis env (jsOr request.ip request.cfConnectingIp) data g with
        | .error error =>
          (validationCalls request ++ resolverCalls env (jsOr request.ip request.cfConnectingIp)
            ++ [.generateAdvancedIpAnalysis (jsOr request.ip request.cfConnectingIp) data],
           .ok { status := 500, contentType := "text/plain",
                 body := .text ("获取数据时出错: " ++ error.message) })
        | .ok advanced =>
          respondWithPage env request (jsOr request.ip request.cfConnectingIp)
            (validationCalls request ++ resolverCalls env (jsOr request.ip request.cfConnectingIp)
              ++ [.generateAdvancedIpAnalysis (jsOr request.ip request.cfConnectingIp) data])
            (.record data (some advanced)) := by
  have hrej : (match request.ip with
      | some s => if s ≠ "" then ([Call.isValidIpAddress s], !isValidIpAddress s) else ([], false)
      | none => ([], false)) = (validationCalls request, false) := by
    unfold validationCalls
    cases hip : request.ip with
    | none => rfl
    | some s =>
      by_cases hne : s = ""
      · simp [hne]
      · have : isValidIpAddress s = true := by
          by_contra hv
          exact hok ⟨h, s, hip, hne, by simpa using hv⟩
        simp [hne, this]
  unfold handleRequest
  simp only [h, if_true, hrej]
  unfold chosenResult resolverCalls
  cases h1 : (fetchIpInfo env (jsOr request.ip request.cfConnectingIp)).error <;> simp

theorem fetchIpInfo_advanced (env : Env) (ip : Option String) (data : IpRecord)
    (adv : Option AnalysisResult) (h : fetchIpInfo env ip = .record data adv) : adv = none := by
  unfold fetchIpInfo fetchIpInfoTry at h
  dsimp only at h
  split at h
  · rename_i r hr
    split at hr <;> simp at hr
    · subst hr; simp at h
    · subst hr; simp at h; exact h.2.symm
  · simp at h

theorem fetchBackupIpInfo_advanced (env : Env) (ip : Option String) (data : IpRecord)
    (adv : Option AnalysisResult) (h : fetchBackupIpInfo env ip = .record data adv) :
    adv = none := by
  unfold fetchBackupIpInfo fetchBackupIpInfoTry at h
  dsimp only at h
  split at h
  · rename_i r hr
    split at hr <;> simp at hr
    · subst hr; simp at h
    · subst hr; simp at h; exact h.2.symm
  · simp at h

theorem chosenResult_advanced (env : Env) (ip : Option String) (data : IpRecord)
    (adv : Option AnalysisResult) (h : chosenResult env ip = .record data adv) : adv = none := by
  unfold chosenResult at h
  split at h
  · exact fetchBackupIpInfo_advanced env ip data adv h
  · exact fetchIpInfo_advanced env ip data adv h

theorem handleRequest_accepted_cases (env : Env) (g : Rand) (request : Request)
    (h : request.method = "GET") (hok : ¬Rejected request) :
    (∃ m page, chosenResult env (jsOr request.ip request.cfConnectingIp) = .failure m ∧
      generateHtmlPage env (jsOr request.ip request.cfConnectingIp) (some (.failure m))
        (getBrowserInfo request) = .ok page ∧
      page.main = .noData (formatNoDataMessage (some m)) ∧ page.advanced = none ∧
      handleRequest env g request =
        (validationCalls request ++ resolverCalls env (jsOr request.ip request.cfConnectingIp)
          ++ [.getBrowserInfo,
              .generateHtmlPage (jsOr request.ip request.cfConnectingIp) (.failure m)],
         .ok { status := 200, contentType := "text/html", body := .page page })) ∨
    (∃ data e, chosenResult env (jsOr request.ip request.cfConnectingIp) = .record data none ∧
      generateAdvancedIpAnalysis env (jsOr request.ip request.cfConnectingIp) data g = .error e ∧
      handleRequest env g request =
        (validationCalls request ++ resolverCalls env (jsOr request.ip request.cfConnectingIp)
          ++ [.generateAdvancedIpAnalysis (jsOr request.ip request.cfConnectingIp) data],
         .ok { status := 500, contentType := "text/plain",
               body := .text ("获取数据时出错: " ++ e.message) })) ∨
    (∃ data adv page, chosenResult env (jsOr request.ip request.cfConnectingIp) = .record data none ∧
      generateAdvancedIpAnalysis env (jsOr request.ip request.cfConnectingIp) data g = .ok adv ∧
      generateHtmlPage env (jsOr request.ip request.cfConnectingIp)
        (some (.record data (some adv))) (getBrowserInfo request) = .ok page ∧
      page.main = .data (formatDataAsHtml data) ∧
      page.advanced = some (formatAdvancedAnalysis adv) ∧
      handleRequest env g request =
        (validationCalls request ++ resolverCalls env (jsOr request.ip request.cfConnectingIp)
          ++ [.generateAdvancedIpAnalysis (jsOr request.ip request.cfConnectingIp) data,
              .getBrowserInfo,
              .generateHtmlPage (jsOr request.ip request.cfConnectingIp)
                (.record data (some adv))],
         .ok { status := 200, contentType := "text/html", body := .page page })) := by
  rw [handleRequest_accepted env g request h hok]
  cases hc : chosenResult env (jsOr request.ip request.cfConnectingIp) with
  | failure m =>
    exact Or.inl ⟨m, _, rfl, rfl, rfl, rfl, by simp [respondWithPage, generateHtmlPage]⟩
  | record data adv0 =>
    have hadv := chosenResult_advanced env _ data adv0 hc
    subst hadv
    cases hg : generateAdvancedIpAnalysis env (jsOr request.ip request.cfConnectingIp) data g with
    | error e => exact Or.inr (Or.inl ⟨data, e, rfl, hg, by simp [hg]⟩)
    | ok adv =>
      exact Or.inr (Or.inr ⟨data, adv, _, rfl, hg, rfl, rfl, rfl,
        by simp [hg, respondWithPage, generateHtmlPage]⟩)

theorem validationCalls_no_resolver (request : Request) :
    (validationCalls request).filter Call.isResolver = [] := by
  unfold validationCalls
  split
  · split <;> rfl
  · rfl

theorem resolverCalls_filter (env : Env) (ip : Option String) :
    (resolverCalls env ip).filter Call.isResolver = resolverCalls env ip := by
  unfold resolverCalls
  split <;> rfl

theorem not_rejected_of_falsy (request : Request) (h : truthy request.ip = false) :
    ¬Rejected request := by
  rintro ⟨-, s, hs, hne, -⟩
  rw [hs] at h
  simp [truthy, hne] at h

theorem jsOr_of_falsy (a b : Option String) (h : truthy a = false) : jsOr a b = b := by
  simp [jsOr, h]

theorem validationCalls_of_falsy (request : Request) (h : truthy request.ip = false) :
    validationCalls request = [] := by
  unfold validationCalls
  cases hip : request.ip with
  | none => rfl
  | some s =>
    rw [hip] at h
    have : s = "" := by simpa [truthy] using h
    simp [this]

theorem accepted_status (env : Env) (g : Rand) (request : Request)
    (h : request.method = "GET") (hok : ¬Rejected request) (r : Response)
    (hr : (handleRequest env g request).2 = .ok r) : r.status = 200 ∨ r.status = 500 := by
  rcases handleRequest_accepted_cases env g request h hok with
    ⟨m, page, -, -, -, -, heq⟩ | ⟨data, e, -, -, heq⟩ | ⟨data, adv, page, -, -, -, -, -, heq⟩
  all_goals
    rw [heq] at hr
    simp only [Except.ok.injEq] at hr
    subst hr
    simp

/-- C5: the answer is 400 with `text/plain` exactly for a GET whose `ip`
parameter is present, non-empty and rejected by `isValidIpAddress`; then no
resolver is called; an absent or empty parameter is never rejected and the
`CF-Connecting-IP` value is looked up instead. -/
theorem handleRequest_400_iff (env : Env) (g : Rand) (request : Request) :
    ((∃ r, (handleRequest env g request).2 = .ok r ∧ r.status = 400 ∧
        r.contentType = "text/plain") ↔ Rejected request) ∧
    (Rejected request → (handleRequest env g request).1.filter Call.isResolver = []) ∧
    (request.method = "GET" → (request.ip = none ∨ request.ip = some "") →
      (∀ r, (handleRequest env g request).2 = .ok r → r.status ≠ 400) ∧
      (handleRequest env g request).1.head? = some (.fetchIpInfo request.cfConnectingIp)) := by
  refine ⟨⟨?_, ?_⟩, ?_, ?_⟩
  · rintro ⟨r, hr, hst, -⟩
    by_contra hnr
    by_cases hget : request.method = "GET"
    · rcases accepted_status env g request hget hnr r hr with h2 | h5 <;> omega
    · rw [handleRequest_other env g request hget] at hr
      simp only [Except.ok.injEq] at hr
      subst hr
      simp at hst
  · rintro ⟨hget, s, hs, hne, hbad⟩
    rw [handleRequest_rejected env g request s hget hs hne hbad]
    exact ⟨_, rfl, rfl, rfl⟩
  · rintro ⟨hget, s, hs, hne, hbad⟩
    rw [handleRequest_rejected env g request s hget hs hne hbad]
    rfl
  · intro hget hno
    have hfalsy : truthy request.ip = false := by
      rcases hno with h0 | h0 <;> rw [h0] <;> rfl
    have hnr := not_rejected_of_falsy request hfalsy
    refine ⟨fun r hr => ?_, ?_⟩
    · rcases accepted_status env g request hget hnr r hr with h2 | h5 <;> omega
    · rcases handleRequest_accepted_cases env g request hget hnr with
        ⟨m, page, -, -, -, -, heq⟩ | ⟨data, e, -, -, heq⟩ | ⟨data, adv, page, -, -, -, -, -, heq⟩
      all_goals
        rw [heq, validationCalls_of_falsy request hfalsy, jsOr_of_falsy _ _ hfalsy]
        unfold resolverCalls
        split <;> rfl

/-- Witness for C5: `?ip=8.8.8.256` is rejected and no resolver is called. -/
theorem handleRequest_400_iff_witness :
    Rejected badRequest ∧
    (handleRequest offlineEnv zeroRand badRequest).1.filter Call.isResolver = [] :=
  ⟨⟨rfl, "8.8.8.256", rfl, by decide, by decide⟩,
   (handleRequest_400_iff offlineEnv zeroRand badRequest).2.1
     ⟨rfl, "8.8.8.256", rfl, by decide, by decide⟩⟩

/-- C10: a request whose method is not GET gets 200 `text/html` with exactly
`searchForm()` as body; the only call made is `searchForm`, so the parameter is
not validated and no resolver, analysis or context extraction runs. -/
theorem handleRequest_non_get (env : Env) (g : Rand) (request : Request)
    (h : request.method ≠ "GET") :
    handleRequest env g request =
      ([.searchForm],
       .ok { status := 200, contentType := "text/html", body := .text searchForm }) :=
  handleRequest_other env g request h

/-- Witness for C10: a POST with a malformed parameter still gets the form. -/
theorem handleRequest_non_get_witness :
    postRequest.method ≠ "GET" ∧
    handleRequest offlineEnv zeroRand postRequest =
      ([.searchForm],
       .ok { status := 200, contentType := "text/html", body := .text searchForm }) :=
  ⟨by decide, handleRequest_non_get offlineEnv zeroRand postRequest (by decide)⟩

theorem mem_validationCalls (request : Request) (c : Call) (h : c ∈ validationCalls request) :
    ∃ s, c = .isValidIpAddress s := by
  unfold validationCalls at h
  split at h
  · split at h
    · exact ⟨_, by simpa using h⟩
    · simp at h
  · simp at h

theorem mem_resolverCalls (env : Env) (ip : Option String) (c : Call)
    (h : c ∈ resolverCalls env ip) : c = .fetchIpInfo ip ∨ c = .fetchBackupIpInfo ip := by
  unfold resolverCalls at h
  split at h
  · simpa using h
  · exact Or.inl (by simpa using h)

/-- C6: a GET that passes validation calls the primary resolver exactly once,
and the fallback resolver exactly when the primary returned an error record,
after it; there are at most two resolver calls, and analysis and rendering
use the primary's record when it is not an error, the fallback's otherwise. -/
theorem resolver_calls_in_order (env : Env) (g : Rand) (request : Request)
    (hget : request.method = "GET") (hok : ¬Rejected request) :
    (handleRequest env g request).1.filter Call.isResolver =
      (if (fetchIpInfo env (lookedUpIp request)).error
        then [.fetchIpInfo (lookedUpIp request), .fetchBackupIpInfo (lookedUpIp request)]
        else [.fetchIpInfo (lookedUpIp request)]) ∧
    ((handleRequest env g request).1.filter Call.isPrimary).length = 1 ∧
    (((handleRequest env g request).1.filter Call.isFallback).length =
      if (fetchIpInfo env (lookedUpIp request)).error then 1 else 0) ∧
    ((handleRequest env g request).1.filter Call.isResolver).length ≤ 2 ∧
    (∀ ip data, Call.generateAdvancedIpAnalysis ip data ∈ (handleRequest env g request).1 →
      ip = lookedUpIp request ∧ chosenResult env (lookedUpIp request) = .record data none) ∧
    (∀ ip result, Call.generateHtmlPage ip result ∈ (handleRequest env g request).1 →
      ip = lookedUpIp request ∧
      result.withoutAdvanced = chosenResult env (lookedUpIp request)) := by
  unfold lookedUpIp
  have hV : ∀ c ∈ validationCalls request, ∃ s, c = Call.isValidIpAddress s :=
    mem_validationCalls request
  have hR := mem_resolverCalls env (jsOr request.ip request.cfConnectingIp)
  have hVf : ∀ p : Call → Bool, (∀ s, p (.isValidIpAddress s) = false) →
      (validationCalls request).filter p = [] := by
    intro p hp
    rw [List.filter_eq_nil_iff]
    intro c hc
    obtain ⟨s, rfl⟩ := hV c hc
    simp [hp]
  have hRr : (resolverCalls env (jsOr request.ip request.cfConnectingIp)).filter Call.isResolver
      = (if (fetchIpInfo env (jsOr request.ip request.cfConnectingIp)).error
        then [.fetchIpInfo (jsOr request.ip request.cfConnectingIp),
              .fetchBackupIpInfo (jsOr request.ip request.cfConnectingIp)]
        else [.fetchIpInfo (jsOr request.ip request.cfConnectingIp)]) := by
    unfold resolverCalls; split <;> rfl
  have hRp : ((resolverCalls env (jsOr request.ip request.cfConnectingIp)).filter
      Call.isPrimary).length = 1 := by
    unfold resolverCalls; split <;> rfl
  have hRf : ((resolverCalls env (jsOr request.ip request.cfConnectingIp)).filter
      Call.isFallback).length =
      if (fetchIpInfo env (jsOr request.ip request.cfConnectingIp)).error then 1 else 0 := by
    unfold resolverCalls; split <;> rfl
  have hlen : (if (fetchIpInfo env (jsOr request.ip request.cfConnectingIp)).error = true
        then [Call.fetchIpInfo (jsOr request.ip request.cfConnectingIp),
              Call.fetchBackupIpInfo (jsOr request.ip request.cfConnectingIp)]
        else [Call.fetchIpInfo (jsOr request.ip request.cfConnectingIp)]).length ≤ 2 := by
    split <;> simp
  rcases handleRequest_accepted_cases env g request hget hok with
    ⟨m, page, hc, -, -, -, heq⟩ | ⟨data, e, hc, -, heq⟩ | ⟨data, adv, page, hc, -, -, -, -, heq⟩
  all_goals
    rw [heq]
    simp only [List.filter_append, hVf Call.isResolver (fun _ => rfl),
      hVf Call.isPrimary (fun _ => rfl), hVf Call.isFallback (fun _ => rfl), hRr, hRp, hRf,
      List.nil_append, List.length_append]
    refine ⟨by simp [Call.isResolver], by simp [Call.isPrimary], by simp [Call.isFallback],
      by simpa [Call.isResolver] using hlen, ?_, ?_⟩
    · intro ip d hmem
      simp only [List.mem_append] at hmem
      rcases hmem with (hv | hr) | hl
      · obtain ⟨s, hs⟩ := hV _ hv; cases hs
      · rcases hR _ hr with hs | hs <;> cases hs
      · simp at hl
        try (obtain ⟨rfl, rfl⟩ := hl; exact ⟨rfl, hc⟩)
    · intro ip res hmem
      simp only [List.mem_append] at hmem
      rcases hmem with (hv | hr) | hl
      · obtain ⟨s, hs⟩ := hV _ hv; cases hs
      · rcases hR _ hr with hs | hs <;> cases hs
      · simp at hl
        try (obtain ⟨rfl, rfl⟩ := hl; exact ⟨rfl, by rw [hc]; rfl⟩)

/-- Witness for C6: with both services down, the request for 8.8.8.8 calls
the primary and then the fallback resolver. -/
theorem resolver_calls_in_order_witness :
    googleRequest.method = "GET" ∧
    (handleRequest offlineEnv zeroRand googleRequest).1.filter Call.isResolver =
      [.fetchIpInfo (some "8.8.8.8"), .fetchBackupIpInfo (some "8.8.8.8")] :=
  ⟨rfl, (resolver_calls_in_order offlineEnv zeroRand googleRequest rfl
    (fun h => by
      obtain ⟨-, s, hs, -, hbad⟩ := h
      cases hs
      revert hbad
      decide)).1⟩

/-! ### The resolvers -/

theorem fetchIpInfo_cases (env : Env) (ip : Option String) :
    (∃ e, env.fetch (primaryUrl ip) = .networkError e ∧
      fetchIpInfo env ip = .failure "API请求失败") ∨
    (∃ body, env.fetch (primaryUrl ip) = .response false body ∧
      fetchIpInfo env ip = .failure "IP信息获取失败") ∨
    (∃ e, env.fetch (primaryUrl ip) = .response true (.invalid e) ∧
      fetchIpInfo env ip = .failure "API请求失败") ∨
    (env.fetch (primaryUrl ip) = .response true .null ∧
      fetchIpInfo env ip = .failure "API请求失败") ∨
    (∃ json, env.fetch (primaryUrl ip) = .response true (.value json) ∧
      fetchIpInfo env ip = .record
        { ip := json "ip", city := json "city", region := json "region",
          country := json "country", loc := json "loc", org := json "org",
          postal := json "postal", timezone := json "timezone",
          hostname := json "hostname" } none) := by
  unfold fetchIpInfo fetchIpInfoTry primaryUrl
  dsimp only
  cases h : env.fetch ("https://ipinfo.io/" ++ templNull ip ++ "/json?token=free") with
  | networkError e => exact Or.inl ⟨e, rfl, rfl⟩
  | response ok body =>
    cases ok with
    | false => exact Or.inr (Or.inl ⟨body, rfl, rfl⟩)
    | true =>
      cases body with
      | invalid e => exact Or.inr (Or.inr (Or.inl ⟨e, rfl, rfl⟩))
      | null => exact Or.inr (Or.inr (Or.inr (Or.inl ⟨rfl, rfl⟩)))
      | value json => exact Or.inr (Or.inr (Or.inr (Or.inr ⟨json, rfl, rfl⟩)))

theorem fetchBackupIpInfo_cases (env : Env) (ip : Option String) :
    (∃ e, env.fetch (backupUrl ip) = .networkError e ∧
      fetchBackupIpInfo env ip = .failure "所有API请求失败") ∨
    (∃ body, env.fetch (backupUrl ip) = .response false body ∧
      fetchBackupIpInfo env ip = .failure "备用API请求失败") ∨
    (∃ e, env.fetch (backupUrl ip) = .response true (.invalid e) ∧
      fetchBackupIpInfo env ip = .failure "所有API请求失败") ∨
    (env.fetch (backupUrl ip) = .response true .null ∧
      fetchBackupIpInfo env ip = .failure "所有API请求失败") ∨
    (∃ json, env.fetch (backupUrl ip) = .response true (.value json) ∧
      fetchBackupIpInfo env ip = .record (backupRecord ip json) none) := by
  unfold fetchBackupIpInfo fetchBackupIpInfoTry backupUrl
  dsimp only
  cases h : env.fetch ("http://ip-api.com/json/" ++ templNull ip ++ "?fields=66846719") with
  | networkError e => exact Or.inl ⟨e, rfl, rfl⟩
  | response ok body =>
    cases ok with
    | false => exact Or.inr (Or.inl ⟨body, rfl, rfl⟩)
    | true =>
      cases body with
      | invalid e => exact Or.inr (Or.inr (Or.inl ⟨e, rfl, rfl⟩))
      | null => exact Or.inr (Or.inr (Or.inr (Or.inl ⟨rfl, rfl⟩)))
      | value json => exact Or.inr (Or.inr (Or.inr (Or.inr ⟨json, rfl, rfl⟩)))

theorem fetchIpInfo_failure_message (env : Env) (ip : Option String) (m : String)
    (h : fetchIpInfo env ip = .failure m) : m = "API请求失败" ∨ m = "IP信息获取失败" := by
  rcases fetchIpInfo_cases env ip with ⟨_, -, h2⟩ | ⟨_, -, h2⟩ | ⟨_, -, h2⟩ | ⟨-, h2⟩ | ⟨_, -, h2⟩
  all_goals
    rw [h2] at h
    cases h <;> first | exact Or.inl rfl | exact Or.inr rfl

theorem fetchBackupIpInfo_failure_message (env : Env) (ip : Option String) (m : String)
    (h : fetchBackupIpInfo env ip = .failure m) :
    m = "所有API请求失败" ∨ m = "备用API请求失败" := by
  rcases fetchBackupIpInfo_cases env ip with
    ⟨_, -, h2⟩ | ⟨_, -, h2⟩ | ⟨_, -, h2⟩ | ⟨-, h2⟩ | ⟨_, -, h2⟩
  all_goals
    rw [h2] at h
    cases h <;> first | exact Or.inl rfl | exact Or.inr rfl

/-- C9: the resolvers never throw: an exception inside the `try` block
becomes an error record; a non-success status, a network failure and a parse
failure each give `error = true` with a non-empty message; only a successful
response with parseable JSON gives a record without the error tag. -/
theorem resolvers_never_throw (env : Env) (ip : Option String) :
    (∀ e, fetchIpInfoTry env ip = .error e → fetchIpInfo env ip = .failure "API请求失败") ∧
    (∀ e, fetchBackupIpInfoTry env ip = .error e →
      fetchBackupIpInfo env ip = .failure "所有API请求失败") ∧
    (∀ e, env.fetch (primaryUrl ip) = .networkError e → (fetchIpInfo env ip).error = true) ∧
    (∀ body, env.fetch (primaryUrl ip) = .response false body →
      (fetchIpInfo env ip).error = true) ∧
    (∀ e, env.fetch (primaryUrl ip) = .response true (.invalid e) →
      (fetchIpInfo env ip).error = true) ∧
    (∀ e, env.fetch (backupUrl ip) = .networkError e →
      (fetchBackupIpInfo env ip).error = true) ∧
    (∀ body, env.fetch (backupUrl ip) = .response false body →
      (fetchBackupIpInfo env ip).error = true) ∧
    (∀ e, env.fetch (backupUrl ip) = .response true (.invalid e) →
      (fetchBackupIpInfo env ip).error = true) ∧
    (∀ m, fetchIpInfo env ip = .failure m → m ≠ "") ∧
    (∀ m, fetchBackupIpInfo env ip = .failure m → m ≠ "") ∧
    ((fetchIpInfo env ip).error = false →
      ∃ json, env.fetch (primaryUrl ip) = .response true (.value json)) ∧
    ((fetchBackupIpInfo env ip).error = false →
      ∃ json, env.fetch (backupUrl ip) = .response true (.value json)) := by
  refine ⟨?_, ?_, ?_, ?_, ?_, ?_, ?_, ?_, ?_, ?_, ?_, ?_⟩
  · intro e h; simp [fetchIpInfo, h]
  · intro e h; simp [fetchBackupIpInfo, h]
  · intro e h
    rcases fetchIpInfo_cases env ip with
      ⟨_, -, h2⟩ | ⟨_, -, h2⟩ | ⟨_, -, h2⟩ | ⟨-, h2⟩ | ⟨_, h1, -⟩
    · rw [h2]; rfl
    · rw [h2]; rfl
    · rw [h2]; rfl
    · rw [h2]; rfl
    · rw [h] at h1; cases h1
  · intro body h
    rcases fetchIpInfo_cases env ip with
      ⟨_, -, h2⟩ | ⟨_, -, h2⟩ | ⟨_, -, h2⟩ | ⟨-, h2⟩ | ⟨_, h1, -⟩
    · rw [h2]; rfl
    · rw [h2]; rfl
    · rw [h2]; rfl
    · rw [h2]; rfl
    · rw [h] at h1; cases h1
  · intro e h
    rcases fetchIpInfo_cases env ip with
      ⟨_, -, h2⟩ | ⟨_, -, h2⟩ | ⟨_, -, h2⟩ | ⟨-, h2⟩ | ⟨_, h1, -⟩
    · rw [h2]; rfl
    · rw [h2]; rfl
    · rw [h2]; rfl
    · rw [h2]; rfl
    · rw [h] at h1; cases h1
  · intro e h
    rcases fetchBackupIpInfo_cases env ip with
      ⟨_, -, h2⟩ | ⟨_, -, h2⟩ | ⟨_, -, h2⟩ | ⟨-, h2⟩ | ⟨_, h1, -⟩
    · rw [h2]; rfl
    · rw [h2]; rfl
    · rw [h2]; rfl
    · rw [h2]; rfl
    · rw [h] at h1; cases h1
  · intro body h
    rcases fetchBackupIpInfo_cases env ip with
      ⟨_, -, h2⟩ | ⟨_, -, h2⟩ | ⟨_, -, h2⟩ | ⟨-, h2⟩ | ⟨_, h1, -⟩
    · rw [h2]; rfl
    · rw [h2]; rfl
    · rw [h2]; rfl
    · rw [h2]; rfl
    · rw [h] at h1; cases h1
  · intro e h
    rcases fetchBackupIpInfo_cases env ip with
      ⟨_, -, h2⟩ | ⟨_, -, h2⟩ | ⟨_, -, h2⟩ | ⟨-, h2⟩ | ⟨_, h1, -⟩
    · rw [h2]; rfl
    · rw [h2]; rfl
    · rw [h2]; rfl
    · rw [h2]; rfl
    · rw [h] at h1; cases h1
  · intro m h
    rcases fetchIpInfo_failure_message env ip m h with rfl | rfl <;> decide
  · intro m h
    rcases fetchBackupIpInfo_failure_message env ip m h with rfl | rfl <;> decide
  · intro h
    rcases fetchIpInfo_cases env ip with
      ⟨_, -, h2⟩ | ⟨_, -, h2⟩ | ⟨_, -, h2⟩ | ⟨-, h2⟩ | ⟨json, h1, -⟩
    · rw [h2] at h; cases h
    · rw [h2] at h; cases h
    · rw [h2] at h; cases h
    · rw [h2] at h; cases h
    · exact ⟨json, h1⟩
  · intro h
    rcases fetchBackupIpInfo_cases env ip with
      ⟨_, -, h2⟩ | ⟨_, -, h2⟩ | ⟨_, -, h2⟩ | ⟨-, h2⟩ | ⟨json, h1, -⟩
    · rw [h2] at h; cases h
    · rw [h2] at h; cases h
    · rw [h2] at h; cases h
    · rw [h2] at h; cases h
    · exact ⟨json, h1⟩

/-- Witness for C9: a network failure makes both resolvers return an error
record with their own message. -/
theorem resolvers_never_throw_witness :
    fetchIpInfo offlineEnv (some "8.8.8.8") = .failure "API请求失败" ∧
    fetchBackupIpInfo offlineEnv (some "8.8.8.8") = .failure "所有API请求失败" :=
  ⟨(resolvers_never_throw offlineEnv (some "8.8.8.8")).1 ⟨"network down"⟩ rfl,
   (resolvers_never_throw offlineEnv (some "8.8.8.8")).2.1 ⟨"network down"⟩ rfl⟩

theorem orElse_of_ne (s d : String) (h : s ≠ "") : orElse (some s) d = s := by
  simp [orElse, h]

/-- C7: when both resolvers return error records the answer is still 200
`text/html`; no analysis is generated; the page shows the
`formatNoDataMessage` panel, which carries the fallback's message, and its
analysis hole is empty (`formatDataAsHtml` and `formatAdvancedAnalysis` are
not used). -/
theorem both_fail_renders_no_data (env : Env) (g : Rand) (request : Request) (m : String)
    (hget : request.method = "GET") (hok : ¬Rejected request)
    (h1 : (fetchIpInfo env (lookedUpIp request)).error = true)
    (h2 : fetchBackupIpInfo env (lookedUpIp request) = .failure m) :
    ∃ page, (handleRequest env g request).2 =
        .ok { status := 200, contentType := "text/html", body := .page page } ∧
      (handleRequest env g request).1.filter Call.isAnalysis = [] ∧
      page.main = .noData (formatNoDataMessage (some m)) ∧
      Contains (formatNoDataMessage (some m)) m ∧ m ≠ "" ∧
      page.advanced = none := by
  unfold lookedUpIp at h1 h2
  have hc : chosenResult env (jsOr request.ip request.cfConnectingIp) = .failure m := by
    unfold chosenResult
    rw [if_pos h1, h2]
  have hm : m ≠ "" := by
    rcases fetchBackupIpInfo_failure_message env _ m h2 with rfl | rfl <;> decide
  have hVa : (validationCalls request).filter Call.isAnalysis = [] := by
    rw [List.filter_eq_nil_iff]
    intro c hcv
    obtain ⟨s, rfl⟩ := mem_validationCalls request c hcv
    simp [Call.isAnalysis]
  have hRa : (resolverCalls env (jsOr request.ip request.cfConnectingIp)).filter
      Call.isAnalysis = [] := by
    unfold resolverCalls; split <;> rfl
  rcases handleRequest_accepted_cases env g request hget hok with
    ⟨m2, page, hc2, -, hmain, hadv, heq⟩ | ⟨data, e, hc2, -, -⟩ | ⟨data, adv, page, hc2, -⟩
  · rw [hc] at hc2
    cases hc2
    refine ⟨page, by rw [heq], ?_, hmain, ?_, hm, hadv⟩
    · rw [heq]
      simp only [List.filter_append, hVa, hRa, List.nil_append]
      rfl
    · exact ⟨_, _, by unfold formatNoDataMessage; rw [orElse_of_ne m _ hm]⟩
  · rw [hc] at hc2; cases hc2
  · rw [hc] at hc2; cases hc2

/-- Witness for C7: with both services down the request for 8.8.8.8 is
answered with the panel carrying the fallback's message. -/
theorem both_fail_renders_no_data_witness :
    (fetchIpInfo offlineEnv (lookedUpIp googleRequest)).error = true ∧
    fetchBackupIpInfo offlineEnv (lookedUpIp googleRequest) = .failure "所有API请求失败" ∧
    ∃ page, (handleRequest offlineEnv zeroRand googleRequest).2 =
        .ok { status := 200, contentType := "text/html", body := .page page } ∧
      (handleRequest offlineEnv zeroRand googleRequest).1.filter Call.isAnalysis = [] ∧
      page.main = .noData (formatNoDataMessage (some "所有API请求失败")) ∧
      Contains (formatNoDataMessage (some "所有API请求失败")) "所有API请求失败" ∧
      "所有API请求失败" ≠ "" ∧
      page.advanced = none :=
  ⟨rfl, rfl, both_fail_renders_no_data offlineEnv zeroRand googleRequest "所有API请求失败" rfl
    (fun h => by
      obtain ⟨-, s, hs, -, hbad⟩ := h
      cases hs
      revert hbad
      decide) rfl rfl⟩

theorem generateAsnHistory_head (year : Int) (data : IpRecord) (g : Rand) (asn : String)
    (h : data.asn = some asn) (hne : asn ≠ "") :
    (generateAsnHistory year data g).1.head?.map AsnEntry.asn = some asn := by
  unfold generateAsnHistory
  simp only [h, truthy, hne, ne_eq, not_false_eq_true, decide_True, if_true, orElse_of_ne asn "" hne]
  split <;> split <;> simp

/-- C8: a non-error record of `fetchIpInfo` has neither `isp` nor `asn`; a
non-error record of `fetchBackupIpInfo` is the stated mapping of the
provider's JSON; so when the primary fails and the fallback succeeds the
rendered record has the fallback's `isp` and `asn`, and the first `asnHistory`
entry uses that `asn` when it is non-empty. -/
theorem fallback_fields_are_used (env : Env) :
    (∀ ip data adv, fetchIpInfo env ip = .record data adv →
      data.isp = none ∧ data.asn = none) ∧
    (∀ ip data adv, fetchBackupIpInfo env ip = .record data adv →
      ∃ json, env.fetch (backupUrl ip) = .response true (.value json) ∧
        data = backupRecord ip json) ∧
    (∀ ip json, env.fetch (backupUrl ip) = .response true (.value json) →
      fetchBackupIpInfo env ip = .record (backupRecord ip json) none) ∧
    (∀ (g : Rand) (request : Request) (s : String) (json : String → Option String),
      request.method = "GET" → ¬Rejected request → lookedUpIp request = some s →
      (fetchIpInfo env (some s)).error = true →
      env.fetch (backupUrl (some s)) = .response true (.value json) →
      ∃ adv page,
        (handleRequest env g request).2 =
          .ok { status := 200, contentType := "text/html", body := .page page } ∧
        Call.generateHtmlPage (some s) (.record (backupRecord (some s) json) (some adv))
          ∈ (handleRequest env g request).1 ∧
        (backupRecord (some s) json).isp = json "isp" ∧
        (backupRecord (some s) json).asn = json "as" ∧
        page.main = .data (formatDataAsHtml (backupRecord (some s) json)) ∧
        page.advanced = some (formatAdvancedAnalysis adv) ∧
        (∀ asn, json "as" = some asn → asn ≠ "" →
          adv.asnHistory.head?.map AsnEntry.asn = some asn)) := by
  refine ⟨?_, ?_, ?_, ?_⟩
  · intro ip data adv h
    rcases fetchIpInfo_cases env ip with
      ⟨_, -, h2⟩ | ⟨_, -, h2⟩ | ⟨_, -, h2⟩ | ⟨-, h2⟩ | ⟨json, -, h2⟩
    all_goals
      rw [h2] at h
      cases h
    exact ⟨rfl, rfl⟩
  · intro ip data adv h
    rcases fetchBackupIpInfo_cases env ip with
      ⟨_, -, h2⟩ | ⟨_, -, h2⟩ | ⟨_, -, h2⟩ | ⟨-, h2⟩ | ⟨json, h1, h2⟩
    all_goals
      rw [h2] at h
      cases h
    exact ⟨json, h1, rfl⟩
  · intro ip json h
    rcases fetchBackupIpInfo_cases env ip with
      ⟨_, h1, -⟩ | ⟨_, h1, -⟩ | ⟨_, h1, -⟩ | ⟨h1, -⟩ | ⟨json2, h1, h2⟩
    all_goals
      rw [h] at h1
      cases h1
    exact h2
  · intro g request s json hget hok hip h1 hfetch
    unfold lookedUpIp at hip
    have hb : fetchBackupIpInfo env (some s) = .record (backupRecord (some s) json) none := by
      rcases fetchBackupIpInfo_cases env (some s) with
        ⟨_, h3, -⟩ | ⟨_, h3, -⟩ | ⟨_, h3, -⟩ | ⟨h3, -⟩ | ⟨json2, h3, h4⟩
      all_goals
        rw [hfetch] at h3
        cases h3
      exact h4
    have hc : chosenResult env (some s) = .record (backupRecord (some s) json) none := by
      unfold chosenResult
      rw [if_pos h1, hb]
    rcases handleRequest_accepted_cases env g request hget hok with
      ⟨m2, page, hc2, -⟩ | ⟨data, e, hc2, hg, -⟩ | ⟨data, adv, page, hc2, hg, -, hmain, hadv, heq⟩
    · rw [hip, hc] at hc2; cases hc2
    · rw [hip] at hg
      simp [generateAdvancedIpAnalysis] at hg
    · rw [hip, hc] at hc2
      cases hc2
      rw [hip] at hg heq
      refine ⟨adv, page, by rw [heq], by rw [heq]; simp, rfl, rfl, hmain, hadv, ?_⟩
      intro asn hasn hne
      simp only [generateAdvancedIpAnalysis, Except.ok.injEq] at hg
      subst hg
      exact generateAsnHistory_head _ _ _ asn hasn hne

/-- Witness for C8: the primary answers 429, the fallback answers for
8.8.8.8, and the page is rendered from the fallback's record. -/
theorem fallback_fields_are_used_witness :
    (fetchIpInfo fallbackEnv (some "8.8.8.8")).error = true ∧
    fallbackEnv.fetch (backupUrl (some "8.8.8.8")) = .response true (.value googleJson) ∧
    googleJson "as" = some "AS15169 Google LLC" ∧
    ∃ adv page,
      (handleRequest fallbackEnv zeroRand googleRequest).2 =
        .ok { status := 200, contentType := "text/html", body := .page page } ∧
      Call.generateHtmlPage (some "8.8.8.8")
          (.record (backupRecord (some "8.8.8.8") googleJson) (some adv))
        ∈ (handleRequest fallbackEnv zeroRand googleRequest).1 ∧
      (backupRecord (some "8.8.8.8") googleJson).isp = googleJson "isp" ∧
      (backupRecord (some "8.8.8.8") googleJson).asn = googleJson "as" ∧
      page.main = .data (formatDataAsHtml (backupRecord (some "8.8.8.8") googleJson)) ∧
      page.advanced = some (formatAdvancedAnalysis adv) ∧
      (∀ asn, googleJson "as" = some asn → asn ≠ "" →
        adv.asnHistory.head?.map AsnEntry.asn = some asn) :=
  ⟨rfl, rfl, rfl,
   (fallback_fields_are_used fallbackEnv).2.2.2 zeroRand googleRequest "8.8.8.8" googleJson rfl
    (fun h => by
      obtain ⟨-, s, hs, -, hbad⟩ := h
      cases hs
      revert hbad
      decide) rfl rfl rfl⟩

/-! ### Keyword tables -/

theorem firstMatch_of_find (table : List (String × String)) (text : String)
    (kv : String × String)
    (h : table.find? (fun kv => includes text kv.1) = some kv) :
    FirstMatch table text kv.2 := by
  obtain ⟨hp, pre, post, htab, hpre⟩ := List.find?_eq_some.1 h
  refine ⟨pre, kv.1, post, htab, (includes_iff _ _).1 hp, fun x hx hin => ?_⟩
  have := hpre x hx
  rw [(includes_iff _ _).2 hin] at this
  simp at this

theorem find_of_firstMatch (table : List (String × String)) (text label : String)
    (h : FirstMatch table text label) :
    ∃ key, table.find? (fun kv => includes text kv.1) = some (key, label) := by
  obtain ⟨pre, key, post, htab, hkey, hpre⟩ := h
  refine ⟨key, List.find?_eq_some.2 ⟨(includes_iff _ _).2 hkey, pre, post, htab, fun x hx => ?_⟩⟩
  have hx2 : includes text x.1 = false :=
    Bool.eq_false_iff.2 fun hin => hpre x hx ((includes_iff _ _).1 hin)
  simp [hx2]

theorem find_none_iff (table : List (String × String)) (text : String) :
    table.find? (fun kv => includes text kv.1) = none ↔
      ∀ kv ∈ table, ¬kv.1.data <:+: text.data := by
  rw [List.find?_eq_none]
  constructor
  · intro h kv hkv hin
    exact h kv hkv ((includes_iff _ _).2 hin)
  · intro h kv hkv hin
    exact h kv hkv ((includes_iff _ _).1 hin)

theorem browserName_eq_find (request : Request) (ua : String)
    (h : request.userAgent = some ua) :
    (getBrowserInfo request).browserName =
      match browserLabels.find? (fun kv => includes ua kv.1) with
      | some kv => kv.2
      | none => "未知浏览器" := by
  unfold getBrowserInfo
  rw [h]
  by_cases hua : ua = ""
  · subst hua
    rfl
  · rw [orElse_of_ne ua _ hua]
    simp only [browserLabels, List.find?]
    cases h1 : includes ua "Chrome" <;> cases h2 : includes ua "Firefox" <;>
      cases h3 : includes ua "Safari" <;> cases h4 : includes ua "Edge" <;>
      cases h5 : includes ua "Opera" <;> simp

/-- C11: the `browserName` of `getBrowserInfo` is the label of the first of
Chrome, Firefox, Safari, Edge, Opera that occurs in the User-Agent, and is
the unknown label exactly when none occurs; a User-Agent containing "Chrome"
gives "Google Chrome" whatever else it contains. -/
theorem browserName_first_match (request : Request) (ua : String)
    (h : request.userAgent = some ua) :
    ((∃ label, FirstMatch browserLabels ua label ∧
        (getBrowserInfo request).browserName = label) ∨
      ((∀ kv ∈ browserLabels, ¬kv.1.data <:+: ua.data) ∧
        (getBrowserInfo request).browserName = "未知浏览器")) ∧
    (∀ label, FirstMatch browserLabels ua label →
      (getBrowserInfo request).browserName = label) ∧
    ((getBrowserInfo request).browserName = "未知浏览器" ↔
      ∀ kv ∈ browserLabels, ¬kv.1.data <:+: ua.data) ∧
    ("Chrome".data <:+: ua.data → (getBrowserInfo request).browserName = "Google Chrome") := by
  have hb := browserName_eq_find request ua h
  have hfirst : ∀ label, FirstMatch browserLabels ua label →
      (getBrowserInfo request).browserName = label := by
    intro label hl
    obtain ⟨key, hk⟩ := find_of_firstMatch _ _ _ hl
    rw [hb, hk]
  refine ⟨?_, hfirst, ⟨?_, ?_⟩, ?_⟩
  · cases hf : browserLabels.find? (fun kv => includes ua kv.1) with
    | none =>
      rw [hf] at hb
      exact Or.inr ⟨(find_none_iff _ _).1 hf, hb⟩
    | some kv =>
      rw [hf] at hb
      exact Or.inl ⟨kv.2, firstMatch_of_find _ _ _ hf, hb⟩
  · intro hunk
    cases hf : browserLabels.find? (fun kv => includes ua kv.1) with
    | none => exact (find_none_iff _ _).1 hf
    | some kv =>
      rw [hf] at hb
      have hmem := List.mem_of_find?_eq_some hf
      rw [hunk] at hb
      exfalso
      revert hb
      simp only [browserLabels, List.mem_cons, List.mem_singleton, List.not_mem_nil,
        or_false] at hmem
      rcases hmem with rfl | rfl | rfl | rfl | rfl <;> decide
  · intro hnone
    rw [hb, (find_none_iff _ _).2 hnone]
  · intro hc
    exact hfirst _ ⟨[], "Chrome", _, rfl, hc, by simp⟩

/-- Witness for C11: a User-Agent naming Chrome, Safari and Edge is labelled
Google Chrome. -/
theorem browserName_first_match_witness :
    (getBrowserInfo edgeRequest).browserName = "Google Chrome" :=
  (browserName_first_match edgeRequest _ rfl).2.2.2
    ((includes_iff _ _).1 (by decide))

/-- C12: `detectHostingProvider` returns "Google Cloud" only if `org` contains
"Google"; it returns the unknown label when `org` is missing or empty,
otherwise the mapped name of the first of Amazon, Google, Microsoft,
Digital Ocean, Linode, OVH, Hetzner, Alibaba that occurs in `org`, and `org`
itself when none occurs; "Google LLC" gives "Google Cloud". -/
theorem detectHostingProvider_table (data : IpRecord) :
    hostingProviders.map Prod.fst =
      ["Amazon", "Google", "Microsoft", "Digital Ocean", "Linode", "OVH", "Hetzner",
       "Alibaba"] ∧
    (detectHostingProvider data = "Google Cloud" →
      ∃ o, data.org = some o ∧ "Google".data <:+: o.data) ∧
    ((data.org = none ∨ data.org = some "") → detectHostingProvider data = "未知") ∧
    (∀ o, data.org = some o → o ≠ "" →
      (∃ label, FirstMatch hostingProviders o label ∧ detectHostingProvider data = label) ∨
      ((∀ kv ∈ hostingProviders, ¬kv.1.data <:+: o.data) ∧ detectHostingProvider data = o)) ∧
    detectHostingProvider { org := some "Google LLC" } = "Google Cloud" := by
  refine ⟨rfl, ?_, ?_, ?_, by decide⟩
  · intro hg
    unfold detectHostingProvider at hg
    cases ho : data.org with
    | none => rw [ho] at hg; exact absurd hg (by decide)
    | some o =>
      rw [ho] at hg
      dsimp only at hg
      by_cases hoe : o = ""
      · rw [if_pos hoe] at hg; exact absurd hg (by decide)
      · rw [if_neg hoe] at hg
        refine ⟨o, rfl, ?_⟩
        cases hf : hostingProviders.find? (fun kv => includes o kv.1) with
        | some kv =>
          rw [hf] at hg
          dsimp only at hg
          have hmem := List.mem_of_find?_eq_some hf
          have hin := List.find?_some hf
          simp only [hostingProviders, List.mem_cons, List.mem_singleton, List.not_mem_nil,
            or_false] at hmem
          rcases hmem with rfl | rfl | rfl | rfl | rfl | rfl | rfl | rfl
          · exact absurd hg (by decide)
          · exact (includes_iff _ _).1 hin
          · exact absurd hg (by decide)
          · exact absurd hg (by decide)
          · exact absurd hg (by decide)
          · exact absurd hg (by decide)
          · exact absurd hg (by decide)
          · exact absurd hg (by decide)
        | none =>
          rw [hf] at hg
          dsimp only at hg
          subst hg
          revert hf
          decide
  · intro h
    unfold detectHostingProvider
    rcases h with h | h <;> rw [h]
    rfl
  · intro o ho hoe
    unfold detectHostingProvider
    rw [ho]
    dsimp only
    rw [if_neg hoe]
    cases hf : hostingProviders.find? (fun kv => includes o kv.1) with
    | some kv => exact Or.inl ⟨kv.2, firstMatch_of_find _ _ _ hf, rfl⟩
    | none => exact Or.inr ⟨(find_none_iff _ _).1 hf, rfl⟩

/-- Witness for C12: "Google LLC" is non-empty, no earlier key occurs in it,
and the result is the name mapped to "Google". -/
theorem detectHostingProvider_table_witness :
    ∃ o, googleRecord.org = some o ∧ "Google".data <:+: o.data :=
  (detectHostingProvider_table googleRecord).2.1 (by decide)

/-! ### Proxy detection -/

theorem proxyProviders_any_iff (data : IpRecord) :
    (truthy data.org && proxyProviders.any (fun p => includes (orElse data.org "") p)) = true ↔
      OrgNamesProxy data := by
  unfold OrgNamesProxy proxyProviders
  cases h : data.org with
  | none => simp [truthy]
  | some o =>
    by_cases hoe : o = ""
    · subst hoe
      simp only [truthy, ne_eq, not_true_eq_false, decide_False, Bool.false_and,
        Bool.false_eq_true, Option.some.injEq, false_iff]
      rintro ⟨o2, rfl, p, hp, hin⟩
      have := (includes_iff "" p).2 hin
      revert this
      simp only [List.mem_cons, List.mem_singleton, List.not_mem_nil, or_false] at hp
      rcases hp with rfl | rfl | rfl | rfl | rfl | rfl | rfl | rfl <;> decide
    · rw [orElse_of_ne o _ hoe]
      simp only [truthy, ne_eq, hoe, not_false_eq_true, decide_True, Bool.true_and,
        List.any_eq_true, includes_iff, Option.some.injEq]
      constructor
      · rintro ⟨p, hp, hin⟩
        exact ⟨o, rfl, p, hp, hin⟩
      · rintro ⟨o2, rfl, p, hp, hin⟩
        exact ⟨p, hp, hin⟩

theorem torRanges_any_iff (ip : String) :
    torRanges.any (fun r => startsWith ip r) = true ↔ TorRangeIp ip := by
  unfold TorRangeIp torRanges
  rw [List.any_eq_true]
  simp only [startsWith_iff]

theorem torRange_of_exitNode (ip : String) (h : ExitNodeIp ip) : TorRangeIp ip := by
  obtain ⟨p, hp, hpre⟩ := h
  refine ⟨p, ?_, hpre⟩
  simp only [List.mem_cons, List.mem_singleton, List.not_mem_nil, or_false] at hp ⊢
  rcases hp with rfl | rfl | rfl
  · exact Or.inl rfl
  · exact Or.inr (Or.inl rfl)
  · exact Or.inr (Or.inr (Or.inl rfl))

/-- C20: whenever `calculateRiskScore` applies its exit-node bonus or its
data-centre bonus, `detectProxyUsage` on the same ip and record reports
`detected = true`; it reports `detected = false` exactly when `org` names no
listed VPN provider, `ip` starts with none of the six prefixes, and `org`
contains neither "Data Center" nor "Hosting". -/
theorem detectProxyUsage_covers_bonuses (ip : String) (data : IpRecord) :
    ((torExits.any (fun p => startsWith ip p) = true ∨ dataCenterOrg data = true) →
      (detectProxyUsage ip data).detected = true) ∧
    ((ExitNodeIp ip ∨ OrgIsDataCenter data) → (detectProxyUsage ip data).detected = true) ∧
    ((detectProxyUsage ip data).detected = false ↔
      (¬OrgNamesProxy data ∧ ¬TorRangeIp ip ∧ ¬OrgIsDataCenter data)) := by
  have key : (detectProxyUsage ip data).detected = false ↔
      (¬OrgNamesProxy data ∧ ¬TorRangeIp ip ∧ ¬OrgIsDataCenter data) := by
    rw [← proxyProviders_any_iff, ← torRanges_any_iff, ← dataCenterOrg_iff]
    unfold detectProxyUsage
    split
    · rename_i h1; simp [h1]
    · rename_i h1
      split
      · rename_i h2; simp [h2]
      · rename_i h2
        split
        · rename_i h3; simp [h3]
        · rename_i h3
          simp only [true_iff]
          exact ⟨h1, h2, h3⟩
  have spec : (ExitNodeIp ip ∨ OrgIsDataCenter data) →
      (detectProxyUsage ip data).detected = true := by
    intro h
    cases hd : (detectProxyUsage ip data).detected with
    | true => rfl
    | false =>
      obtain ⟨-, h2, h3⟩ := key.1 hd
      rcases h with h | h
      · exact absurd (torRange_of_exitNode ip h) h2
      · exact absurd h h3
  refine ⟨?_, spec, key⟩
  rintro (h | h)
  · exact spec (Or.inl ((torExits_any_iff ip).1 h))
  · exact spec (Or.inr ((dataCenterOrg_iff data).1 h))

/-- Witness for C20: a hosting company's record earns the data-centre bonus
and is reported as a proxy. -/
theorem detectProxyUsage_covers_bonuses_witness :
    dataCenterOrg hostingRecord = true ∧
    (detectProxyUsage "203.0.113.7" hostingRecord).detected = true :=
  ⟨by decide, (detectProxyUsage_covers_bonuses "203.0.113.7" hostingRecord).1
    (Or.inr (by decide))⟩

/-! ### Exceptions and the missing address -/

theorem prefix_calls_filter (env : Env) (request : Request) (ip : Option String)
    (p : Call → Bool) (hv : ∀ s, p (.isValidIpAddress s) = false)
    (h1 : ∀ x, p (.fetchIpInfo x) = false) (h2 : ∀ x, p (.fetchBackupIpInfo x) = false) :
    (validationCalls request ++ resolverCalls env ip).filter p = [] := by
  rw [List.filter_eq_nil_iff]
  intro c hc
  rcases List.mem_append.1 hc with hc | hc
  · obtain ⟨s, rfl⟩ := mem_validationCalls request c hc
    simp [hv]
  · rcases mem_resolverCalls env ip c hc with rfl | rfl
    · simp [h1]
    · simp [h2]

theorem contains_suffix (a b : String) : Contains (a ++ b) b :=
  ⟨a, "", by simp⟩

/-- C13: when the analysis raises an exception inside the `try` block (the
resolvers cannot raise one), the response is 500 with `text/plain`, its body
contains the exception's message, and no page is rendered. -/
theorem exception_gives_500 (env : Env) (g : Rand) (request : Request) (data : IpRecord)
    (e : JsError) (hget : request.method = "GET") (hok : ¬Rejected request)
    (hc : chosenResult env (lookedUpIp request) = .record data none)
    (he : generateAdvancedIpAnalysis env (lookedUpIp request) data g = .error e) :
    (handleRequest env g request).2 =
      .ok { status := 500, contentType := "text/plain",
            body := .text ("获取数据时出错: " ++ e.message) } ∧
    Contains ("获取数据时出错: " ++ e.message) e.message ∧
    (handleRequest env g request).1.filter Call.isRender = [] := by
  unfold lookedUpIp at hc he
  rcases handleRequest_accepted_cases env g request hget hok with
    ⟨m, page, hc2, -⟩ | ⟨data2, e2, hc2, he2, heq⟩ | ⟨data2, adv, page, hc2, he2, -⟩
  · rw [hc] at hc2; cases hc2
  · rw [hc] at hc2
    cases hc2
    rw [he] at he2
    cases he2
    rw [heq]
    refine ⟨rfl, contains_suffix _ _, ?_⟩
    rw [List.filter_append,
      prefix_calls_filter env request _ Call.isRender (fun _ => rfl) (fun _ => rfl) (fun _ => rfl)]
    rfl
  · rw [hc] at hc2
    cases hc2
    rw [he] at he2
    cases he2

/-- Witness for C13: no address to look up, the primary service answers, and
the analysis fails on `ip.includes`. -/
theorem exception_gives_500_witness :
    chosenResult answeringEnv (lookedUpIp anonymousRequest) = .record dnsRecord none ∧
    (handleRequest answeringEnv zeroRand anonymousRequest).2 =
      .ok { status := 500, contentType := "text/plain",
            body := .text "获取数据时出错: Cannot read properties: null.includes" } :=
  ⟨rfl, (exception_gives_500 answeringEnv zeroRand anonymousRequest dnsRecord
    ⟨"Cannot read properties: null.includes"⟩ rfl
    (fun h => by
      obtain ⟨-, s, hs, -, -⟩ := h
      cases hs) rfl rfl).1⟩

/-- C19: a GET with no (or an empty) `ip` parameter and no `CF-Connecting-IP`
header looks up `null`; if either resolver returns a non-error record the
analysis fails on `ip.includes` and the response is 500; a 200 page is
returned only when both resolvers return error records. -/
theorem null_ip_gives_500 (env : Env) (g : Rand) (request : Request)
    (hget : request.method = "GET") (hip : request.ip = none ∨ request.ip = some "")
    (hcf : request.cfConnectingIp = none) :
    lookedUpIp request = none ∧
    (((fetchIpInfo env none).error = false ∨ (fetchBackupIpInfo env none).error = false) →
      (handleRequest env g request).2 =
        .ok { status := 500, contentType := "text/plain",
              body := .text ("获取数据时出错: " ++ env.typeErrorMessage "null.includes") }) ∧
    ((∃ r, (handleRequest env g request).2 = .ok r ∧ r.status = 200) ↔
      ((fetchIpInfo env none).error = true ∧ (fetchBackupIpInfo env none).error = true)) := by
  have hfalsy : truthy request.ip = false := by
    rcases hip with h0 | h0 <;> rw [h0] <;> rfl
  have hnr := not_rejected_of_falsy request hfalsy
  have hd : jsOr request.ip request.cfConnectingIp = none := by
    rw [jsOr_of_falsy _ _ hfalsy, hcf]
  have hgen : ∀ data, generateAdvancedIpAnalysis env none data g =
      .error ⟨env.typeErrorMessage "null.includes"⟩ := fun _ => rfl
  refine ⟨hd, ?_, ?_, ?_⟩
  · intro hres
    have hce : (chosenResult env none).error = false := by
      unfold chosenResult
      cases h1 : (fetchIpInfo env none).error with
      | false => simp [h1]
      | true =>
        rcases hres with h | h
        · rw [h1] at h; cases h
        · simp [h]
    rcases handleRequest_accepted_cases env g request hget hnr with
      ⟨m, page, hc2, -⟩ | ⟨data2, e2, hc2, he2, heq⟩ | ⟨data2, adv, page, hc2, he2, -⟩
    · rw [hd] at hc2
      rw [hc2] at hce
      cases hce
    · rw [hd, hgen] at he2
      cases he2
      rw [heq]
    · rw [hd, hgen] at he2
      cases he2
  · rintro ⟨r, hr, hst⟩
    rcases handleRequest_accepted_cases env g request hget hnr with
      ⟨m, page, hc2, -⟩ | ⟨data2, e2, hc2, he2, heq⟩ | ⟨data2, adv, page, hc2, he2, -⟩
    · rw [hd] at hc2
      unfold chosenResult at hc2
      cases h1 : (fetchIpInfo env none).error with
      | false =>
        rw [h1] at hc2
        simp only [Bool.false_eq_true, if_false] at hc2
        rw [hc2] at h1
        cases h1
      | true =>
        rw [h1] at hc2
        simp only [if_true] at hc2
        exact ⟨rfl, by rw [hc2]; rfl⟩
    · rw [heq] at hr
      simp only [Except.ok.injEq] at hr
      subst hr
      simp at hst
    · rw [hd, hgen] at he2
      cases he2
  · rintro ⟨h1, h2⟩
    have hce : ∃ m, chosenResult env none = .failure m := by
      unfold chosenResult
      rw [if_pos h1]
      cases hb : fetchBackupIpInfo env none with
      | failure m => exact ⟨m, rfl⟩
      | record d a => rw [hb] at h2; cases h2
    obtain ⟨m, hm⟩ := hce
    rcases handleRequest_accepted_cases env g request hget hnr with
      ⟨m2, page, hc2, -, -, -, heq⟩ | ⟨data2, e2, hc2, -⟩ | ⟨data2, adv, page, hc2, -⟩
    · exact ⟨_, by rw [heq], rfl⟩
    · rw [hd, hm] at hc2; cases hc2
    · rw [hd, hm] at hc2; cases hc2

/-- Witness for C19: without an address and with the primary service
answering, the response is 500. -/
theorem null_ip_gives_500_witness :
    lookedUpIp anonymousRequest = none ∧
    (fetchIpInfo answeringEnv none).error = false ∧
    (handleRequest answeringEnv zeroRand anonymousRequest).2 =
      .ok { status := 500, contentType := "text/plain",
            body := .text ("获取数据时出错: " ++ answeringEnv.typeErrorMessage "null.includes") } :=
  ⟨rfl, rfl, (null_ip_gives_500 answeringEnv zeroRand anonymousRequest rfl (Or.inl rfl) rfl).2.1
    (Or.inl rfl)⟩

/-! ### Addresses that look like IPv6 -/

theorem colon_mem_of_includes (s : String) (h : ":".data <:+: s.data) : ':' ∈ s.data := by
  obtain ⟨pre, post, hs⟩ := h
  rw [← hs]
  simp

theorem colon_not_octet (w : List Char) (h : OctetChars w) : ':' ∉ w := by
  intro hmem
  have := h.2.2.1 ':' hmem
  have h58 : ':'.toNat = 58 := rfl
  omega

theorem colon_rejected (s : String) (h : ":".data <:+: s.data) :
    isValidIpAddress s = false := by
  have hmem := colon_mem_of_includes s h
  cases hv : isValidIpAddress s with
  | false => rfl
  | true =>
    exfalso
    have hm : ipv4Regex.Matches s.data := (Regex.test_iff _ _).1 hv
    obtain ⟨a, b, c, d, hs, ha, hb, hc, hd⟩ := (ipv4Regex_matches_iff _).1 hm
    rw [hs] at hmem
    simp only [List.mem_append, List.mem_cons] at hmem
    rcases hmem with h1 | h1 | h1 | h1 | h1 | h1 | h1
    · exact colon_not_octet a ha h1
    · exact absurd h1 (by decide)
    · exact colon_not_octet b hb h1
    · exact absurd h1 (by decide)
    · exact colon_not_octet c hc h1
    · exact absurd h1 (by decide)
    · exact colon_not_octet d hd h1

/-- C14, as the code has it: a string containing ':' passed as the `ip`
parameter of a GET is rejected with 400 and reaches neither the resolvers nor
the analysis generator; the analysis generator, when it is given such a
string, labels it `IPv6`. -/
theorem ipv6_param_rejected (env : Env) (g : Rand) (request : Request) (s : String)
    (hget : request.method = "GET") (hs : request.ip = some s) (hcolon : ":".data <:+: s.data) :
    handleRequest env g request =
      ([.isValidIpAddress s],
       .ok { status := 400, contentType := "text/plain", body := .text "无效的IP地址格式" }) ∧
    (handleRequest env g request).1.filter Call.isResolver = [] ∧
    (handleRequest env g request).1.filter Call.isAnalysis = [] ∧
    (∀ data a, generateAdvancedIpAnalysis env (some s) data g = .ok a → a.ipType = "IPv6") := by
  have hne : s ≠ "" := by
    intro h0
    subst h0
    exact absurd (colon_mem_of_includes "" hcolon) (by simp)
  have heq := handleRequest_rejected env g request s hget hs hne (colon_rejected s hcolon)
  refine ⟨heq, by rw [heq]; rfl, by rw [heq]; rfl, ?_⟩
  intro data a ha
  simp only [generateAdvancedIpAnalysis, Except.ok.injEq] at ha
  subst ha
  simp [(includes_iff s ":").2 hcolon]

/-- Witness for C14 as amended: `?ip=::1` is answered with 400. -/
theorem ipv6_param_rejected_witness :
    handleRequest answeringEnv zeroRand loopbackRequest =
      ([.isValidIpAddress "::1"],
       .ok { status := 400, contentType := "text/plain", body := .text "无效的IP地址格式" }) :=
  (ipv6_param_rejected answeringEnv zeroRand loopbackRequest "::1" rfl rfl
    ((includes_iff "::1" ":").1 (by decide))).1

/-- Counterexample to C14 as stated: with both services answering, the GET
request `?ip=::1` is rejected with 400; no resolver and no analysis is
called. -/
theorem ipv6_param_let_through_counterexample :
    includes "::1" ":" = true ∧
    (handleRequest answeringEnv zeroRand loopbackRequest).2 =
      .ok { status := 400, contentType := "text/plain", body := .text "无效的IP地址格式" } ∧
    (handleRequest answeringEnv zeroRand loopbackRequest).1.filter Call.isResolver = [] ∧
    (handleRequest answeringEnv zeroRand loopbackRequest).1.filter Call.isAnalysis = [] :=
  ⟨by decide, rfl, rfl, rfl⟩

/-! ### Display of the risk tier -/

/-- C15: for every analysis produced by `generateAdvancedIpAnalysis`, the
colour class and the bar colour of `formatAdvancedAnalysis` are the danger
pair exactly for the high tier, the warning pair exactly for the medium tier
and the success pair exactly for the low tier of `riskLevel`. -/
theorem display_matches_riskLevel (env : Env) (ip : Option String) (data : IpRecord) (g : Rand)
    (a : AnalysisResult) (h : generateAdvancedIpAnalysis env ip data g = .ok a) :
    (((formatAdvancedAnalysis a).riskColor = "has-text-danger" ∧
        (formatAdvancedAnalysis a).riskBarColor = "var(--high-risk)") ↔
      a.riskLevel = "高风险") ∧
    (((formatAdvancedAnalysis a).riskColor = "has-text-warning" ∧
        (formatAdvancedAnalysis a).riskBarColor = "var(--medium-risk)") ↔
      a.riskLevel = "中风险") ∧
    (((formatAdvancedAnalysis a).riskColor = "has-text-success" ∧
        (formatAdvancedAnalysis a).riskBarColor = "var(--low-risk)") ↔
      a.riskLevel = "低风险") ∧
    ((formatAdvancedAnalysis a).riskColor = "has-text-danger" ↔ a.riskLevel = "高风险") ∧
    ((formatAdvancedAnalysis a).riskBarColor = "var(--high-risk)" ↔ a.riskLevel = "高风险") ∧
    ((formatAdvancedAnalysis a).riskColor = "has-text-warning" ↔ a.riskLevel = "中风险") ∧
    ((formatAdvancedAnalysis a).riskBarColor = "var(--medium-risk)" ↔
      a.riskLevel = "中风险") ∧
    ((formatAdvancedAnalysis a).riskColor = "has-text-success" ↔ a.riskLevel = "低风险") ∧
    ((formatAdvancedAnalysis a).riskBarColor = "var(--low-risk)" ↔ a.riskLevel = "低风险") := by
  cases ip with
  | none => simp [generateAdvancedIpAnalysis] at h
  | some s =>
    simp only [generateAdvancedIpAnalysis, Except.ok.injEq] at h
    subst h
    simp only [formatAdvancedAnalysis]
    by_cases h80 : calculateRiskScore s data (Rand.next g).1 > 80
    · simp only [if_pos h80]
      decide
    · by_cases h50 : calculateRiskScore s data (Rand.next g).1 > 50
      · simp only [if_neg h80, if_pos h50]
        decide
      · simp only [if_neg h80, if_neg h50]
        decide

/-- Witness for C15: the analysis of 8.8.8.8 with all draws 0 is in the low
tier and is shown with the success pair. -/
theorem display_matches_riskLevel_witness :
    (formatAdvancedAnalysis googleAnalysis).riskColor = "has-text-success" ∧
    (formatAdvancedAnalysis googleAnalysis).riskBarColor = "var(--low-risk)" :=
  (display_matches_riskLevel offlineEnv (some "8.8.8.8") googleRecord zeroRand
    googleAnalysis rfl).2.2.1.2 rfl

/-! ### Fabricated histories -/

theorem generateAsnHistory_shape (year : Int) (data : IpRecord) (g : Rand) :
    WellFormedHistory year ((generateAsnHistory year data g).1.map AsnEntry.date)
      ((generateAsnHistory year data g).1.map AsnEntry.current) := by
  unfold generateAsnHistory WellFormedHistory
  dsimp only
  split <;> split <;> split <;> simp

theorem generateRegistrationHistory_shape (year : Int) (data : IpRecord) (g : Rand) :
    WellFormedHistory year ((generateRegistrationHistory year data g).1.map RegEntry.date)
      ((generateRegistrationHistory year data g).1.map RegEntry.current) := by
  unfold generateRegistrationHistory WellFormedHistory
  dsimp only
  split <;> split <;> simp

/-- C16: `generateAsnHistory` and `generateRegistrationHistory` each return 1
to 3 entries; the first is the only current one and is dated January 1 of the
current year; the others are dated in strictly earlier, decreasing years; and
for a record whose country is "US" the Los Angeles row is never appended. -/
theorem histories_well_formed (year : Int) (data : IpRecord) (g : Rand) :
    WellFormedHistory year ((generateAsnHistory year data g).1.map AsnEntry.date)
      ((generateAsnHistory year data g).1.map AsnEntry.current) ∧
    WellFormedHistory year ((generateRegistrationHistory year data g).1.map RegEntry.date)
      ((generateRegistrationHistory year data g).1.map RegEntry.current) ∧
    (data.country = some "US" →
      losAngelesRow year ∉ (generateRegistrationHistory year data g).1 ∧
      ∀ e ∈ (generateRegistrationHistory year data g).1.tail, e.region ≠ "California") := by
  refine ⟨generateAsnHistory_shape year data g, generateRegistrationHistory_shape year data g, ?_⟩
  intro hus
  unfold generateRegistrationHistory losAngelesRow
  dsimp only
  rw [hus]
  have hd : decide ((some "US" : Option String) ≠ some "US") = false := by decide
  simp only [hd, Bool.and_false, Bool.false_eq_true, if_false]
  split <;> simp

/-- Witness for C16: for a record in the United States and draws of 9/10 the
registration history has its second row but not the Los Angeles row. -/
theorem histories_well_formed_witness :
    usRecord.country = some "US" ∧
    (generateRegistrationHistory 2025 usRecord highRand).1.length = 2 ∧
    (generateAsnHistory 2025 usRecord highRand).1.length = 3 ∧
    losAngelesRow 2025 ∉ (generateRegistrationHistory 2025 usRecord highRand).1 :=
  ⟨rfl, rfl, rfl, ((histories_well_formed 2025 usRecord highRand).2.2 rfl).1⟩

/-! ### Blacklist status -/

theorem blacklistRows_spec (now : Int) (isListed : Bool) :
    ∀ (names : List String) (g : Rand),
      (blacklistRows now isListed names g).1.map BlacklistEntry.list = names ∧
      (∀ e ∈ (blacklistRows now isListed names g).1,
        e.status = "已列入" ∨ e.status = "未列入") ∧
      (isListed = false → ∀ e ∈ (blacklistRows now isListed names g).1, e.status = "未列入") := by
  intro names
  induction names with
  | nil => intro g; simp [blacklistRows]
  | cons name rest ih =>
    intro g
    cases isListed with
    | false =>
      simp only [blacklistRows, Bool.false_eq_true, if_false]
      refine ⟨?_, ?_, ?_⟩
      · simp [(ih _).1]
      · intro e he
        rcases List.mem_cons.1 he with rfl | he
        · exact Or.inr rfl
        · exact (ih _).2.1 e he
      · intro _ e he
        rcases List.mem_cons.1 he with rfl | he
        · rfl
        · exact (ih _).2.2 rfl e he
    | true =>
      simp only [blacklistRows, if_true]
      refine ⟨?_, ?_, fun h => by cases h⟩
      · simp [(ih _).1]
      · intro e he
        rcases List.mem_cons.1 he with rfl | he
        · dsimp only
          split
          · exact Or.inl rfl
          · exact Or.inr rfl
        · exact (ih _).2.1 e he

/-- C17, as the code has it: `checkBlacklistStatus` returns exactly four
entries, for Spamhaus, Barracuda, SORBS and AbuseIPDB in that order, each
listed or not listed, and `isListed` is true whenever at least one entry is
listed (when it is false no entry is listed). -/
theorem blacklist_flag_covers_rows (now : Int) (g : Rand) :
    (checkBlacklistStatus now g).1.lists.map BlacklistEntry.list =
      ["Spamhaus", "Barracuda", "SORBS", "AbuseIPDB"] ∧
    (checkBlacklistStatus now g).1.lists.length = 4 ∧
    (∀ e ∈ (checkBlacklistStatus now g).1.lists, e.status = "已列入" ∨ e.status = "未列入") ∧
    ((∃ e ∈ (checkBlacklistStatus now g).1.lists, e.status = "已列入") →
      (checkBlacklistStatus now g).1.isListed = true) ∧
    ((checkBlacklistStatus now g).1.isListed = false →
      ∀ e ∈ (checkBlacklistStatus now g).1.lists, e.status = "未列入") := by
  have hs := blacklistRows_spec now ((Rand.next g).1.gt 7 10) blacklists (Rand.next g).2
  have hnames : (checkBlacklistStatus now g).1.lists.map BlacklistEntry.list =
      ["Spamhaus", "Barracuda", "SORBS", "AbuseIPDB"] := hs.1
  have hfalse : (checkBlacklistStatus now g).1.isListed = false →
      ∀ e ∈ (checkBlacklistStatus now g).1.lists, e.status = "未列入" := hs.2.2
  refine ⟨hnames, ?_, hs.2.1, ?_, hfalse⟩
  · have := congrArg List.length hnames
    simpa using this
  · rintro ⟨e, he, hst⟩
    cases hl : (checkBlacklistStatus now g).1.isListed with
    | true => rfl
    | false =>
      have := hfalse hl e he
      rw [hst] at this
      exact absurd this (by decide)

/-- Witness for C17 as amended: with draws of 9/10 every entry is listed and
the flag is true. -/
theorem blacklist_flag_covers_rows_witness :
    (checkBlacklistStatus 0 highRand).1.isListed = true :=
  (blacklist_flag_covers_rows 0 highRand).2.2.2.1
    ⟨{ list := "Spamhaus", status := "已列入", lastChecked := -2332800000 }, by decide, rfl⟩

/-- Counterexample to C17 as stated: when the first draw is 4/5 and the
others are 0, `isListed` is true and none of the four entries is listed. -/
theorem blacklist_flag_iff_rows_counterexample :
    (checkBlacklistStatus 0 listedThenZeroRand).1 =
      { isListed := true,
        lists :=
          [{ list := "Spamhaus", status := "未列入", lastChecked := 0 },
           { list := "Barracuda", status := "未列入", lastChecked := 0 },
           { list := "SORBS", status := "未列入", lastChecked := 0 },
           { list := "AbuseIPDB", status := "未列入", lastChecked := 0 }] } := by
  decide

/-! ### The embedded risk value -/

theorem calculateRiskScore_ge (ip : String) (data : IpRecord) (d : Draw) :
    15 ≤ calculateRiskScore ip data d := by
  unfold calculateRiskScore
  dsimp only
  refine le_min (le_max_of_le_left ?_) (by decide)
  split <;> split <;> split <;> omega

theorem pageRiskScore_of_analysis (env : Env) (ip : Option String) (data : IpRecord) (g : Rand)
    (adv : AnalysisResult) (h : generateAdvancedIpAnalysis env ip data g = .ok adv)
    (data2 : IpRecord) :
    pageRiskScore (some (.record data2 (some adv))) = adv.riskScore := by
  cases ip with
  | none => simp [generateAdvancedIpAnalysis] at h
  | some s =>
    simp only [generateAdvancedIpAnalysis, Except.ok.injEq] at h
    subst h
    have := calculateRiskScore_ge s data (Rand.next g).1
    simp only [pageRiskScore]
    rw [if_neg (by omega)]

theorem generateHtmlPage_header (env : Env) (displayIp : Option String)
    (result : Option IpResult) (browserInfo : BrowserInfo) (page : Page)
    (h : generateHtmlPage env displayIp result browserInfo = .ok page) :
    page.header =
      if truthy displayIp then
        some { displayIp := templNull displayIp, dataRisk := pageRiskScore result }
      else none := by
  unfold generateHtmlPage at h
  dsimp only at h
  split at h
  · cases h
  · simp only [Except.ok.injEq] at h
    subst h
    rfl

theorem rendered_page_source (env : Env) (g : Rand) (request : Request) (page : Page)
    (hresp : (handleRequest env g request).2 =
      .ok { status := 200, contentType := "text/html", body := .page page }) :
    (∃ m, page.advanced = none ∧
      generateHtmlPage env (jsOr request.ip request.cfConnectingIp) (some (.failure m))
        (getBrowserInfo request) = .ok page) ∨
    (∃ data adv, page.advanced = some (formatAdvancedAnalysis adv) ∧
      generateAdvancedIpAnalysis env (jsOr request.ip request.cfConnectingIp) data g = .ok adv ∧
      generateHtmlPage env (jsOr request.ip request.cfConnectingIp)
        (some (.record data (some adv))) (getBrowserInfo request) = .ok page) := by
  by_cases hget : request.method = "GET"
  · by_cases hrej : Rejected request
    · obtain ⟨-, s, hs, hne, hbad⟩ := hrej
      rw [handleRequest_rejected env g request s hget hs hne hbad] at hresp
      simp at hresp
    · rcases handleRequest_accepted_cases env g request hget hrej with
        ⟨m, page2, -, hpage, -, hadv, heq⟩ | ⟨data, e, -, -, heq⟩ |
        ⟨data, adv, page2, -, hgen, hpage, -, hadv, heq⟩
      · rw [heq] at hresp
        simp only [Except.ok.injEq, Response.mk.injEq, Body.page.injEq, true_and] at hresp
        subst hresp
        exact Or.inl ⟨m, hadv, hpage⟩
      · rw [heq] at hresp
        simp at hresp
      · rw [heq] at hresp
        simp only [Except.ok.injEq, Response.mk.injEq, Body.page.injEq, true_and] at hresp
        subst hresp
        exact Or.inr ⟨data, adv, hadv, hgen, hpage⟩
  · rw [handleRequest_other env g request hget] at hresp
    simp at hresp

/-- C18: `calculateRiskScore` is at least 15 for every input and draw (the
jitter lies in [-5,4], so the score is never 0); hence for a page rendered
from a successful result the `data-risk` value is `advanced.riskScore`, and
the default 30 is used only when there is no analysis.  The `data-risk`
attribute is written exactly when the looked-up ip is truthy, and a GET for a
non-empty ip whose record is not an error is answered with a page that
carries it. -/
theorem dataRisk_is_riskScore :
    (∀ ip data d, 15 ≤ calculateRiskScore ip data d ∧ calculateRiskScore ip data d ≠ 0) ∧
    (∀ d : Draw, -5 ≤ ((d.floorMul 10 : Nat) : Int) - 5 ∧ ((d.floorMul 10 : Nat) : Int) - 5 ≤ 4) ∧
    (∀ env ip data g adv data2, generateAdvancedIpAnalysis env ip data g = .ok adv →
      pageRiskScore (some (.record data2 (some adv))) = adv.riskScore) ∧
    (∀ result, (∀ data adv, result ≠ some (.record data (some adv))) →
      pageRiskScore result = 30) ∧
    (∀ env g request page,
      (handleRequest env g request).2 =
        .ok { status := 200, contentType := "text/html", body := .page page } →
      (∀ v h, page.advanced = some v → page.header = some h →
        h.dataRisk = v.analysis.riskScore) ∧
      (page.advanced = none → ∀ h, page.header = some h → h.dataRisk = 30)) ∧
    (∀ env displayIp result browserInfo page,
      generateHtmlPage env displayIp result browserInfo = .ok page →
      page.header =
        if truthy displayIp then
          some { displayIp := templNull displayIp, dataRisk := pageRiskScore result }
        else none) ∧
    (∀ env g request page,
      (handleRequest env g request).2 =
        .ok { status := 200, contentType := "text/html", body := .page page } →
      (∀ v, page.advanced = some v →
        page.header =
          if truthy (lookedUpIp request) then
            some { displayIp := templNull (lookedUpIp request),
                   dataRisk := v.analysis.riskScore }
          else none) ∧
      (page.advanced = none →
        page.header =
          if truthy (lookedUpIp request) then
            some { displayIp := templNull (lookedUpIp request), dataRisk := 30 }
          else none)) ∧
    (∀ env g request s data, request.method = "GET" → ¬Rejected request →
      lookedUpIp request = some s → s ≠ "" →
      chosenResult env (some s) = .record data none →
      ∃ adv page,
        generateAdvancedIpAnalysis env (some s) data g = .ok adv ∧
        (handleRequest env g request).2 =
          .ok { status := 200, contentType := "text/html", body := .page page } ∧
        page.advanced = some (formatAdvancedAnalysis adv) ∧
        page.header = some { displayIp := s, dataRisk := adv.riskScore }) := by
  have hpagepart : ∀ env g request page,
      (handleRequest env g request).2 =
        .ok { status := 200, contentType := "text/html", body := .page page } →
      (∀ v, page.advanced = some v →
        page.header =
          if truthy (lookedUpIp request) then
            some { displayIp := templNull (lookedUpIp request),
                   dataRisk := v.analysis.riskScore }
          else none) ∧
      (page.advanced = none →
        page.header =
          if truthy (lookedUpIp request) then
            some { displayIp := templNull (lookedUpIp request), dataRisk := 30 }
          else none) := by
    intro env g request page hresp
    unfold lookedUpIp
    rcases rendered_page_source env g request page hresp with
      ⟨m, hadv, hpage⟩ | ⟨data, adv, hadv, hgen, hpage⟩
    · have hh := generateHtmlPage_header _ _ _ _ _ hpage
      refine ⟨fun v hv => ?_, fun _ => ?_⟩
      · rw [hadv] at hv
        cases hv
      · rw [hh]
        rfl
    · have hh := generateHtmlPage_header _ _ _ _ _ hpage
      rw [pageRiskScore_of_analysis env _ data g adv hgen data] at hh
      refine ⟨fun v hv => ?_, fun hnone => ?_⟩
      · rw [hadv] at hv
        cases hv
        exact hh
      · rw [hadv] at hnone
        cases hnone
  refine ⟨?_, ?_, ?_, ?_, ?_, ?_, hpagepart, ?_⟩
  · intro ip data d
    have := calculateRiskScore_ge ip data d
    exact ⟨this, by omega⟩
  · intro d
    have := floorMul_lt d 10 (by decide)
    omega
  · intro env ip data g adv data2 h
    exact pageRiskScore_of_analysis env ip data g adv h data2
  · intro result h
    unfold pageRiskScore
    split
    · rename_i d a
      exact absurd rfl (h d a)
    · rfl
  · intro env g request page hresp
    obtain ⟨h1, h2⟩ := hpagepart env g request page hresp
    refine ⟨fun v h hv hh => ?_, fun hnone h hh => ?_⟩
    · rw [h1 v hv] at hh
      split at hh
      · cases hh
        rfl
      · cases hh
    · rw [h2 hnone] at hh
      split at hh
      · cases hh
        rfl
      · cases hh
  · intro env displayIp result browserInfo page h
    exact generateHtmlPage_header env displayIp result browserInfo page h
  · intro env g request s data hget hnr hip hne hc
    unfold lookedUpIp at hip
    have ht : truthy (some s) = true := by simp [truthy, hne]
    rcases handleRequest_accepted_cases env g request hget hnr with
      ⟨m, page, hc2, -⟩ | ⟨data2, e, -, he, -⟩ |
      ⟨data2, adv, page, hc2, hgen, hpage, -, hadv, heq⟩
    · rw [hip, hc] at hc2
      cases hc2
    · rw [hip] at he
      simp [generateAdvancedIpAnalysis] at he
    · rw [hip, hc] at hc2
      cases hc2
      rw [hip] at hgen hpage
      have hh := generateHtmlPage_header _ _ _ _ _ hpage
      rw [if_pos ht, pageRiskScore_of_analysis env _ data g adv hgen data] at hh
      exact ⟨adv, page, hgen, by rw [heq], hadv, hh⟩

/-- Witness for C18: with the primary service answering, the page for
`?ip=8.8.8.8` is rendered and its `data-risk` holds the score of the analysis. -/
theorem dataRisk_is_riskScore_witness :
    lookedUpIp googleRequest = some "8.8.8.8" ∧
    chosenResult answeringEnv (some "8.8.8.8") = .record dnsRecord none ∧
    ∃ adv page,
      generateAdvancedIpAnalysis answeringEnv (some "8.8.8.8") dnsRecord zeroRand = .ok adv ∧
      (handleRequest answeringEnv zeroRand googleRequest).2 =
        .ok { status := 200, contentType := "text/html", body := .page page } ∧
      page.advanced = some (formatAdvancedAnalysis adv) ∧
      page.header = some { displayIp := "8.8.8.8", dataRisk := adv.riskScore } :=
  ⟨rfl, rfl, dataRisk_is_riskScore.2.2.2.2.2.2.2 answeringEnv zeroRand googleRequest "8.8.8.8"
    dnsRecord rfl
    (fun h => by
      obtain ⟨-, s, hs, -, hbad⟩ := h
      cases hs
      revert hbad
      decide) rfl (by decide) rfl⟩

/-! ### Where an IPv6 label can come from -/

theorem ipType_of_analysis (env : Env) (ip : Option String) (data : IpRecord) (g : Rand)
    (a : AnalysisResult) (h : generateAdvancedIpAnalysis env ip data g = .ok a) :
    ∃ s, ip = some s ∧ a.ipType = if includes s ":" then "IPv6" else "IPv4" := by
  cases ip with
  | none => simp [generateAdvancedIpAnalysis] at h
  | some s =>
    simp only [generateAdvancedIpAnalysis, Except.ok.injEq] at h
    subst h
    exact ⟨s, rfl, rfl⟩

theorem page_advanced_source (env : Env) (g : Rand) (request : Request) (page : Page)
    (v : AdvancedHtml)
    (hresp : (handleRequest env g request).2 =
      .ok { status := 200, contentType := "text/html", body := .page page })
    (hv : page.advanced = some v) :
    request.method = "GET" ∧ ¬Rejected request ∧
    ∃ data, generateAdvancedIpAnalysis env (jsOr request.ip request.cfConnectingIp) data g
      = .ok v.analysis := by
  by_cases hget : request.method = "GET"
  · by_cases hrej : Rejected request
    · obtain ⟨-, s, hs, hne, hbad⟩ := hrej
      rw [handleRequest_rejected env g request s hget hs hne hbad] at hresp
      simp at hresp
    · refine ⟨hget, hrej, ?_⟩
      rcases handleRequest_accepted_cases env g request hget hrej with
        ⟨m, page2, -, -, -, hadv, heq⟩ | ⟨data, e, -, -, heq⟩ |
        ⟨data, adv, page2, -, hgen, -, -, hadv, heq⟩
      · rw [heq] at hresp
        simp only [Except.ok.injEq, Response.mk.injEq, Body.page.injEq, true_and] at hresp
        subst hresp
        rw [hadv] at hv
        cases hv
      · rw [heq] at hresp
        simp at hresp
      · rw [heq] at hresp
        simp only [Except.ok.injEq, Response.mk.injEq, Body.page.injEq, true_and] at hresp
        subst hresp
        rw [hadv] at hv
        cases hv
        exact ⟨data, hgen⟩
  · rw [handleRequest_other env g request hget] at hresp
    simp at hresp

theorem valid_of_not_400 (env : Env) (g : Rand) (request : Request) (s : String)
    (hget : request.method = "GET") (hs : request.ip = some s) (hne : s ≠ "")
    (h400 : ∀ r, (handleRequest env g request).2 = .ok r → r.status ≠ 400) :
    isValidIpAddress s = true := by
  cases hv : isValidIpAddress s with
  | true => rfl
  | false =>
    exact absurd rfl (h400 _ (by rw [handleRequest_rejected env g request s hget hs hne hv]))

/-- C21: for a GET with a non-empty `ip` parameter that is not rejected with
400, the analysed ip is that parameter, it contains no ':' and `ipType` is
`IPv4`; `ipType` is `IPv6` only when the parameter is absent or empty and the
ip comes from the `CF-Connecting-IP` header, for which `isValidIpAddress` is
never called. -/
theorem param_ip_is_ipv4 (env : Env) (g : Rand) (request : Request) :
    (∀ s, request.method = "GET" → request.ip = some s → s ≠ "" →
      (∀ r, (handleRequest env g request).2 = .ok r → r.status ≠ 400) →
      lookedUpIp request = some s ∧ ¬":".data <:+: s.data ∧
      (∀ ip data, Call.generateAdvancedIpAnalysis ip data ∈ (handleRequest env g request).1 →
        ip = some s) ∧
      (∀ data a, generateAdvancedIpAnalysis env (some s) data g = .ok a → a.ipType = "IPv4") ∧
      (∀ page v, (handleRequest env g request).2 =
          .ok { status := 200, contentType := "text/html", body := .page page } →
        page.advanced = some v → v.analysis.ipType = "IPv4")) ∧
    (∀ page v, (handleRequest env g request).2 =
        .ok { status := 200, contentType := "text/html", body := .page page } →
      page.advanced = some v → v.analysis.ipType = "IPv6" →
      (request.ip = none ∨ request.ip = some "") ∧
      (∃ h, request.cfConnectingIp = some h ∧ lookedUpIp request = some h ∧
        ":".data <:+: h.data) ∧
      (handleRequest env g request).1.filter Call.isValidation = []) := by
  constructor
  · intro s hget hs hne h400
    have hvalid := valid_of_not_400 env g request s hget hs hne h400
    have hnr : ¬Rejected request := by
      rintro ⟨-, s2, hs2, -, hbad⟩
      rw [hs] at hs2
      cases hs2
      rw [hvalid] at hbad
      cases hbad
    have hd : jsOr request.ip request.cfConnectingIp = some s := by
      simp [jsOr, hs, truthy, hne]
    have hcolon : ¬":".data <:+: s.data := by
      intro hc
      rw [colon_rejected s hc] at hvalid
      cases hvalid
    have hinc : includes s ":" = false :=
      Bool.eq_false_iff.2 fun h => hcolon ((includes_iff _ _).1 h)
    have hv4 : ∀ data a, generateAdvancedIpAnalysis env (some s) data g = .ok a →
        a.ipType = "IPv4" := by
      intro data a ha
      obtain ⟨s2, hs2, ht⟩ := ipType_of_analysis env _ data g a ha
      cases hs2
      rw [ht, hinc]
      rfl
    refine ⟨hd, hcolon, ?_, hv4, ?_⟩
    · intro ip data hmem
      rcases handleRequest_accepted_cases env g request hget hnr with
        ⟨m, page, -, -, -, -, heq⟩ | ⟨data2, e, -, -, heq⟩ | ⟨data2, adv, page, -, -, -, -, -, heq⟩
      all_goals
        rw [heq] at hmem
        simp only [List.mem_append] at hmem
        rcases hmem with (hv | hr) | hl
        · obtain ⟨x, hx⟩ := mem_validationCalls request _ hv
          cases hx
        · rcases mem_resolverCalls env _ _ hr with hx | hx <;> cases hx
        · simp at hl
          try (rw [← hd]; exact hl.1)
    · intro page v hresp hv
      obtain ⟨-, -, data, hgen⟩ := page_advanced_source env g request page v hresp hv
      rw [hd] at hgen
      exact hv4 data _ hgen
  · intro page v hresp hv h6
    obtain ⟨hget, hnr, data, hgen⟩ := page_advanced_source env g request page v hresp hv
    obtain ⟨x, hx, ht⟩ := ipType_of_analysis env _ data g _ hgen
    have hinc : includes x ":" = true := by
      cases hi : includes x ":" with
      | true => rfl
      | false =>
        rw [hi, h6] at ht
        exact absurd ht (by decide)
    have hcolon := (includes_iff _ _).1 hinc
    have hfalsy : truthy request.ip = false := by
      cases hip : request.ip with
      | none => rfl
      | some s =>
        by_cases hne : s = ""
        · subst hne; rfl
        · exfalso
          have hd : jsOr request.ip request.cfConnectingIp = some s := by
            simp [jsOr, hip, truthy, hne]
          rw [hd] at hx
          have hsx : s = x := by injection hx
          subst hsx
          have hvalid : isValidIpAddress s = true := by
            by_contra hbad
            exact hnr ⟨hget, s, hip, hne, by simpa using hbad⟩
          rw [colon_rejected s hcolon] at hvalid
          cases hvalid
    have hip : request.ip = none ∨ request.ip = some "" := by
      cases hip : request.ip with
      | none => exact Or.inl rfl
      | some s =>
        rw [hip] at hfalsy
        have : s = "" := by simpa [truthy] using hfalsy
        exact Or.inr (by rw [this])
    have hd := jsOr_of_falsy request.ip request.cfConnectingIp hfalsy
    refine ⟨hip, ⟨x, by rw [← hd, hx], by unfold lookedUpIp; exact hx, hcolon⟩, ?_⟩
    rcases handleRequest_accepted_cases env g request hget hnr with
      ⟨m, page2, -, -, -, -, heq⟩ | ⟨data2, e, -, -, heq⟩ | ⟨data2, adv, page2, -, -, -, -, -, heq⟩
    all_goals
      rw [heq, validationCalls_of_falsy request hfalsy]
      unfold resolverCalls
      split <;> rfl

/-- Witness for C21: `?ip=8.8.8.8` is not rejected, so the analysed ip is
8.8.8.8 and has no ':'. -/
theorem param_ip_is_ipv4_witness :
    googleRequest.ip = some "8.8.8.8" ∧
    lookedUpIp googleRequest = some "8.8.8.8" ∧ ¬":".data <:+: "8.8.8.8".data :=
  have h := (param_ip_is_ipv4 answeringEnv zeroRand googleRequest).1 "8.8.8.8" rfl rfl
    (by decide)
    (fun r hr => by
      have hnr : ¬Rejected googleRequest := by
        rintro ⟨-, s, hs, -, hbad⟩
        cases hs
        revert hbad
        decide
      rcases accepted_status answeringEnv zeroRand googleRequest rfl hnr r hr with h2 | h5 <;>
        omega)
  ⟨rfl, h.1, h.2.1⟩

/-- An IPv6 address in the `CF-Connecting-IP` header, with no `ip` parameter,
is analysed and labelled `IPv6`. -/
theorem header_ipv6_reaches_analysis :
    ∃ page v, (handleRequest answeringEnv zeroRand headerRequest).2 =
        .ok { status := 200, contentType := "text/html", body := .page page } ∧
      page.advanced = some v ∧ v.analysis.ipType = "IPv6" := by
  have hnr : ¬Rejected headerRequest := by
    rintro ⟨-, s, hs, -, -⟩
    cases hs
  rcases handleRequest_accepted_cases answeringEnv zeroRand headerRequest rfl hnr with
    ⟨m, page, hc, -⟩ | ⟨data, e, -, he, -⟩ | ⟨data, adv, page, -, hgen, -, -, hadv, heq⟩
  · cases hc
  · cases he
  · refine ⟨page, _, by rw [heq], hadv, ?_⟩
    obtain ⟨s, hs, ht⟩ := ipType_of_analysis _ _ _ _ _ hgen
    cases hs
    exact ht

end IPGOT
